import Mathlib

/-!
Shallow embedding of the cryptographic core of PrivAccess: the circom
geofence circuit (zkp_circom/geohash_prefix.circom), the client-side
Schnorr prover (static/js/zkp.js), and the native geohash encoder
(priv_access_rs/static/js/geohash_zkp.js), together with proofs of the
specification claims about them.
-/

namespace PrivAccess

/-! ## The circom geofence circuit

`template IsEqual()` computes `out <== 1 - diff * diff` with
`diff <== in[0] - in[1]`; `template GeoHashPrefixCheck(n)` wires `n`
copies of `IsEqual` over the two input arrays and multiplies all the
`prefixMatch[i]` outputs into `isValid`.  Signals live in the prime
field of circom 2.0.0 (the BN254 scalar field). -/

/-- The circom 2.0.0 default field modulus (BN254 scalar field order). -/
def circomP : Nat := 21888242871839275222246405745257275088548364400416034343698204186575808495617

instance : Fact (1 < circomP) := ⟨by norm_num [circomP]⟩

/-- The circuit signal field. -/
abbrev F : Type := ZMod circomP

/-- Output signal of `template IsEqual()`: `diff <== in[0] - in[1]; out <== 1 - diff * diff`. -/
def IsEqualOut (in0 in1 : F) : F :=
  let diff := in0 - in1
  1 - diff * diff

/-- Output signal `isValid` of `template GeoHashPrefixCheck(n)`: the product of
`prefixMatch[i] = IsEqual(userHash[i], allowedPrefix[i]).out` over `i < n`,
accumulated left to right starting from `1` exactly as the circom loop does. -/
def GeoHashPrefixCheck (n : Nat) (userHash allowedPrefix : Fin n → F) : F :=
  (List.finRange n).foldl (fun total i => total * IsEqualOut (userHash i) (allowedPrefix i)) 1

/-- The JS client feeds the circuit ASCII character codes
(`map(c => c.charCodeAt(0))`), embedded into the field by the witness builder. -/
def charSignals {n : Nat} (v : Fin n → Nat) : Fin n → F := fun i => (v i : F)

/-! ## The client-side Schnorr prover (static/js/zkp.js)

JS `BigInt` remainder `%` truncates toward zero (the sign follows the
dividend), which is `Int.tmod`; `BigInt` division of the nonnegative
exponent by `2n` is `Nat` division. -/

/-- The `while (exp > 0n)` loop of `powerMod`, with the loop state
`(exp, base, result)` passed explicitly. Each iteration does
`if (exp % 2n === 1n) result = (result * base) % mod; exp = exp / 2n;
base = (base * base) % mod`. -/
def powerModGo (m : Int) (exp : Nat) (base result : Int) : Int :=
  if exp = 0 then result
  else
    powerModGo m (exp / 2) ((base * base).tmod m)
      (if exp % 2 = 1 then (result * base).tmod m else result)
termination_by exp
decreasing_by omega

/-- `function powerMod(base, exp, mod)` from static/js/zkp.js:
`result = 1n; base = base % mod;` then the square-and-multiply loop. -/
def powerMod (base : Int) (exp : Nat) (modulus : Int) : Int :=
  powerModGo modulus exp (base.tmod modulus) 1

/-- `const P = BigInt("0x" + P_HEX)`: the 2048-bit safe prime shared with the server. -/
def P : Nat := 0xFFFFFFFFFFFFFFFFC90FDAA22168C234C4C6628B80DC1CD129024E088A67CC74020BBEA63B139B22514A08798E3404DDEF9519B3CD3A431B302B0A6DF25F14374FE1356D6D51C245E485B576625E7EC6F44C42E9A637ED6B0BFF5CB6F406B7EDEE386BFB5A899FA5AE9F24117C4B1FE649286651ECE45B3DC2007CB8A163BF0598DA48361C55D39A69163FA8FD24CF5F83655D23DCA3AD961C62F356208552BB9ED529077096966D670C354E4ABC9804F1746C08CA18217C32905E462E36CE3BE39E772C180E86039B2783A2EC07A28FB5C55DF06F4C52C9DE2BCBF6955817183995497CEA956AE515D2261898FA051015728E5A8AACAA68FFFFFFFFFFFFFFFF

/-- `const G = 2n`. -/
def G : Nat := 2

/-- `const Q = (P - 1n) / 2n`. -/
def Q : Nat := (P - 1) / 2

/-- One square-and-multiply step on the state `(exp, base, result)`, used to
evaluate `2 ^ Q % P` by kernel computation in bounded-depth chunks. -/
def pmStep (m : Nat) (s : Nat × Nat × Nat) : Nat × Nat × Nat :=
  if s.1 = 0 then s
  else (s.1 / 2, s.2.1 * s.2.1 % m, if s.1 % 2 = 1 then s.2.2 * s.2.1 % m else s.2.2)

/-- `k` square-and-multiply steps. -/
def pmSteps (m k : Nat) (s : Nat × Nat × Nat) : Nat × Nat × Nat := (pmStep m)^[k] s

/-- The nonce computation in `SchnorrProverJS.generateProof`: a 32-byte value
`v` from `crypto.getRandomValues` is turned into `r = v % (Q - 1n) + 1n`. -/
def sampleNonce (v : Nat) : Nat := v % (Q - 1) + 1

/-- The object returned by `SchnorrProverJS.generateProof`
(numeric fields kept as numbers rather than decimal strings). -/
structure SchnorrProof where
  public_key : Int
  commitment : Int
  response : Nat
  geohash : List Char

/-- `SchnorrProverJS.generateProof(geohash)` for private key `x`, with the raw
32-byte random value `rand32` and the challenge hash `H` (the SHA-256 of
`R.toString() + publicKey.toString() + geohashPrefix`, read as a number)
taken as parameters: `r = rand32 % (Q-1) + 1`, `R = powerMod(G, r, P)`,
`c = H(...) % Q`, `s = (r + c * x) % Q`. -/
def generateProof (privateKey : Nat) (rand32 : Nat)
    (H : Int → Int → List Char → Nat) (geohash : List Char) : SchnorrProof :=
  let r := sampleNonce rand32
  let publicKey : Int := powerMod (G : Int) privateKey (P : Int)
  let R : Int := powerMod (G : Int) r (P : Int)
  let geohashPre := geohash.take 6
  let c := H R publicKey geohashPre % Q
  let s := (r + c * privateKey) % Q
  { public_key := publicKey, commitment := R, response := s, geohash := geohash }

/-- Modelled from the spec: the Schnorr verifier (it lives in the Rust backend
`zkp.rs`, which is not under src/) recomputes `c = H(R, y, C) mod Q` from the
proof itself and accepts iff `G^s mod P == (R * y^c mod P) mod P`. -/
def schnorrVerify (H : Int → Int → List Char → Nat) (pr : SchnorrProof) : Prop :=
  let c := H pr.commitment pr.public_key (pr.geohash.take 6) % Q
  powerMod (G : Int) pr.response (P : Int)
    = (pr.commitment * powerMod pr.public_key c (P : Int)) % (P : Int)

/-! ## The native geohash encoder (priv_access_rs/static/js/geohash_zkp.js)

`computeGeohash(lat, lon, precision)` bisects the longitude/latitude
bounding box, packing one bit per iteration into a 5-bit accumulator `ch`
and emitting one base-32 character every 5 bits, until the hash string
reaches `precision` characters.  Coordinates are modelled as rationals
(each loop iteration only halves intervals with small dyadic endpoints,
which IEEE doubles represent exactly at any realistic precision); the
possibly negative or non-integer JS `precision` is modelled as `Int`. -/

/-- `const B32 = "0123456789bcdefghjkmnpqrstuvwxyz"`. -/
def B32 : List Char := "0123456789bcdefghjkmnpqrstuvwxyz".toList

/-- The mutable state of the `computeGeohash` loop. -/
structure GeoState where
  hash : List Char
  minLat : ℚ
  maxLat : ℚ
  minLon : ℚ
  maxLon : ℚ
  bit : Nat
  ch : Nat
  isEven : Bool

/-- `hash = ""; minLat = -90; maxLat = 90; minLon = -180; maxLon = 180;
bit = 0; ch = 0; is_even = true`. -/
def geoInit : GeoState :=
  { hash := [], minLat := -90, maxLat := 90, minLon := -180, maxLon := 180,
    bit := 0, ch := 0, isEven := true }

/-- The `if (is_even) ... else ...` half of the loop body: bisect the
longitude (resp. latitude) interval and set bit `4 - bit` of `ch` when the
coordinate lies in the upper half. -/
def geoRefine (lat lon : ℚ) (s : GeoState) : GeoState :=
  if s.isEven then
    let mid := (s.minLon + s.maxLon) / 2
    if lon ≥ mid then { s with ch := s.ch ||| 1 <<< (4 - s.bit), minLon := mid }
    else { s with maxLon := mid }
  else
    let mid := (s.minLat + s.maxLat) / 2
    if lat ≥ mid then { s with ch := s.ch ||| 1 <<< (4 - s.bit), minLat := mid }
    else { s with maxLat := mid }

/-- The `if (bit < 4) bit++; else { hash += B32[ch]; bit = 0; ch = 0; }`
tail of the loop body. -/
def geoEmit (s : GeoState) : GeoState :=
  if s.bit < 4 then { s with bit := s.bit + 1 }
  else { s with hash := s.hash ++ [B32.getD s.ch ' '], bit := 0, ch := 0 }

/-- One full iteration of the `while` loop body, including `is_even = !is_even`. -/
def geoStep (lat lon : ℚ) (s : GeoState) : GeoState :=
  let s1 := geoRefine lat lon s
  geoEmit { s1 with isEven := !s1.isEven }

/-- The `while (hash.length < precision)` loop, run with explicit fuel
(`5 * precision.toNat` suffices and is exact: see `geoLoop_eq_iter`). -/
def geoLoop (lat lon : ℚ) (prec : Int) : Nat → GeoState → GeoState
  | 0, s => s
  | fuel + 1, s =>
    if (s.hash.length : Int) < prec then geoLoop lat lon prec fuel (geoStep lat lon s)
    else s

/-- `function computeGeohash(lat, lon, precision)`: run the loop from the
fresh state and return the accumulated hash string. -/
def computeGeohash (lat lon : ℚ) (prec : Int) : List Char :=
  (geoLoop lat lon prec (5 * prec.toNat) geoInit).hash

/-! ## The proof orchestrator payload (runGeohashZKP)

`runGeohashZKP` tries `snarkjs.groth16.fullProve`; on success it submits
`{proof, publicSignals}` to `/verify`, and when the call throws it submits
the demo payload `{demo: true, userHash: userHashStr, allowedPrefix}`
instead.  The opaque SNARK artifact is a type parameter. -/

/-- The JSON body POSTed to `/verify`: either a real SNARK artifact or the
`demo: true` fallback object. -/
inductive VerifyPayload (α : Type) where
  | real (artifact : α)
  | demo (userHash : List Char) (allowedPrefix : List Char)

/-- The `try { ... fullProve ... } catch (wasmError) { ... }` block of
`runGeohashZKP`, as a function of the proving engine's outcome:
`some artifact` when `fullProve` succeeds, `none` when it throws. -/
def buildVerifyPayload {α : Type} (proveResult : Option α)
    (userHashStr allowedPrefix : List Char) : VerifyPayload α :=
  match proveResult with
  | some artifact => VerifyPayload.real artifact
  | none => VerifyPayload.demo userHashStr allowedPrefix

/-- The raw geohash fingerprint carried by a payload, if any. -/
def payloadRawGeohash {α : Type} : VerifyPayload α → Option (List Char)
  | VerifyPayload.real _ => none
  | VerifyPayload.demo u _ => some u

/-! ## Circuit lemmas -/

lemma foldl_mul_one {α : Type} (f : α → F) :
    ∀ (l : List α) (t : F), (∀ i ∈ l, f i = 1) →
      l.foldl (fun acc i => acc * f i) t = t := by
  intro l
  induction l with
  | nil => intro t _; rfl
  | cons a l ih =>
    intro t h
    simp only [List.foldl_cons]
    rw [h a (List.mem_cons_self a l), mul_one]
    exact ih t fun i hi => h i (List.mem_cons_of_mem a hi)

lemma foldl_mul_zero_start {α : Type} (f : α → F) :
    ∀ l : List α, l.foldl (fun acc i => acc * f i) 0 = 0 := by
  intro l
  induction l with
  | nil => rfl
  | cons a l ih => simpa using ih

lemma foldl_mul_zero {α : Type} (f : α → F) :
    ∀ (l : List α) (t : F), (∃ i ∈ l, f i = 0) →
      l.foldl (fun acc i => acc * f i) t = 0 := by
  intro l
  induction l with
  | nil => rintro t ⟨i, hi, _⟩; exact absurd hi (List.not_mem_nil i)
  | cons a l ih =>
    rintro t ⟨i, hi, hz⟩
    rcases List.mem_cons.mp hi with rfl | hi
    · simp only [List.foldl_cons, hz, mul_zero]
      exact foldl_mul_zero_start f l
    · exact ih _ ⟨i, hi, hz⟩

lemma foldl_mul_single {α : Type} (f : α → F) :
    ∀ (l : List α) (t : F) (i : α), l.Nodup → i ∈ l →
      (∀ j ∈ l, j ≠ i → f j = 1) →
      l.foldl (fun acc j => acc * f j) t = t * f i := by
  intro l
  induction l with
  | nil => rintro t i _ hi _; exact absurd hi (List.not_mem_nil i)
  | cons a l ih =>
    rintro t i hnd hi hone
    rcases List.mem_cons.mp hi with rfl | hi
    · simp only [List.foldl_cons]
      refine foldl_mul_one f l (t * f i) fun j hj => ?_
      exact hone j (List.mem_cons_of_mem i hj)
        fun hji => (List.nodup_cons.mp hnd).1 (hji ▸ hj)
    · simp only [List.foldl_cons]
      rw [hone a (List.mem_cons_self a l)
        fun hai => (List.nodup_cons.mp hnd).1 (hai ▸ hi), mul_one]
      exact ih t i (List.nodup_cons.mp hnd).2 hi
        fun j hj hji => hone j (List.mem_cons_of_mem a hj) hji

lemma IsEqualOut_self (x : F) : IsEqualOut x x = 1 := by
  simp [IsEqualOut]

lemma GeoHashPrefixCheck_all_eq {n : Nat} (u a : Fin n → F) (h : ∀ i, u i = a i) :
    GeoHashPrefixCheck n u a = 1 := by
  refine foldl_mul_one _ _ _ fun i _ => ?_
  rw [h i]; exact IsEqualOut_self (a i)

lemma GeoHashPrefixCheck_single {n : Nat} (u a : Fin n → F) (i : Fin n)
    (h : ∀ j, j ≠ i → u j = a j) :
    GeoHashPrefixCheck n u a = IsEqualOut (u i) (a i) := by
  unfold GeoHashPrefixCheck
  rw [foldl_mul_single _ (List.finRange n) 1 i (List.nodup_finRange n)
    (List.mem_finRange i) fun j _ hji => by rw [h j hji]; exact IsEqualOut_self (a j)]
  exact one_mul _

lemma IsEqualOut_adj {n : Nat} (u a : Fin n → Nat) (i : Fin n)
    (h : u i = a i + 1 ∨ a i = u i + 1) :
    IsEqualOut (charSignals u i) (charSignals a i) = 0 := by
  rcases h with h | h <;>
  · simp only [IsEqualOut, charSignals, h]
    push_cast
    ring

lemma IsEqualOut_far_aux (x y : Nat) (hx : x < 256) (hxy : y + 1 < x) :
    IsEqualOut ((x : F)) ((y : F)) ≠ 0 := by
  obtain ⟨k, rfl, hk2, hk255⟩ : ∃ k, x = y + k ∧ 2 ≤ k ∧ k ≤ 255 :=
    ⟨x - y, by omega, by omega, by omega⟩
  intro h0
  simp only [IsEqualOut] at h0
  have hd : ((y + k : Nat) : F) - (y : F) = (k : F) := by push_cast; ring
  rw [hd] at h0
  have h1 : ((k * k : Nat) : F) = 1 := by
    push_cast
    exact (sub_eq_zero.mp h0).symm
  have h2 := congrArg ZMod.val h1
  rw [ZMod.val_cast_of_lt, ZMod.val_one] at h2
  · have : 2 * 2 ≤ k * k := Nat.mul_le_mul hk2 hk2
    omega
  · calc k * k ≤ 255 * 255 := Nat.mul_le_mul hk255 hk255
    _ < circomP := by norm_num [circomP]

lemma IsEqualOut_far {n : Nat} (u a : Fin n → Nat) (i : Fin n)
    (hu : u i < 256) (ha : a i < 256) (h : a i + 1 < u i ∨ u i + 1 < a i) :
    IsEqualOut (charSignals u i) (charSignals a i) ≠ 0 := by
  simp only [charSignals]
  rcases h with h | h
  · exact IsEqualOut_far_aux (u i) (a i) hu h
  · intro h0
    refine IsEqualOut_far_aux (a i) (u i) ha h ?_
    simp only [IsEqualOut] at h0 ⊢
    rw [show ((a i : F)) - (u i : F) = -(((u i : F)) - (a i : F)) by ring]
    rw [show (1 : F) - -((u i : F) - (a i : F)) * -((u i : F) - (a i : F))
      = 1 - ((u i : F) - (a i : F)) * ((u i : F) - (a i : F)) by ring]
    exact h0

/-- C1 (counterexample): the claim "if exactly one position differs with
character-code difference greater than 1 then isValid equals 0" is false:
with inputs `[50,48,48,48,48,48]` and `[48,48,48,48,48,48]` (difference 2 at
position 0, all other positions equal), `GeoHashPrefixCheck(6)` outputs
`1 - 2^2 = -3 ≠ 0` in the field. -/
theorem C1_counterexample :
    (![50, 48, 48, 48, 48, 48] : Fin 6 → Nat) 0
        = (![48, 48, 48, 48, 48, 48] : Fin 6 → Nat) 0 + 2 ∧
    (∀ j : Fin 6, j ≠ 0 →
      (![50, 48, 48, 48, 48, 48] : Fin 6 → Nat) j
        = (![48, 48, 48, 48, 48, 48] : Fin 6 → Nat) j) ∧
    GeoHashPrefixCheck 6 (charSignals ![50, 48, 48, 48, 48, 48])
      (charSignals ![48, 48, 48, 48, 48, 48]) ≠ 0 :=
  ⟨by decide, by decide, by decide⟩

/-- C1 (amended): for `GeoHashPrefixCheck(6)` over its field, if all 6
positions are equal then `isValid = 1`; if exactly one position differs with
character-code difference exactly 1 then `isValid = 0`; and if exactly one
position differs with character-code difference greater than 1 (inputs being
character codes < 256) then `isValid` is nonzero rather than 0. -/
theorem C1_circuit_validity :
    (∀ u a : Fin 6 → Nat, (∀ i, u i = a i) →
      GeoHashPrefixCheck 6 (charSignals u) (charSignals a) = 1) ∧
    (∀ (u a : Fin 6 → Nat) (i : Fin 6), (∀ j, j ≠ i → u j = a j) →
      (u i = a i + 1 ∨ a i = u i + 1) →
      GeoHashPrefixCheck 6 (charSignals u) (charSignals a) = 0) ∧
    (∀ (u a : Fin 6 → Nat) (i : Fin 6), (∀ j, j ≠ i → u j = a j) →
      (∀ j, u j < 256 ∧ a j < 256) →
      (a i + 1 < u i ∨ u i + 1 < a i) →
      GeoHashPrefixCheck 6 (charSignals u) (charSignals a) ≠ 0) := by
  refine ⟨fun u a h => ?_, fun u a i hj hd => ?_, fun u a i hj hb hd => ?_⟩
  · exact GeoHashPrefixCheck_all_eq _ _ fun i => by simp [charSignals, h i]
  · rw [GeoHashPrefixCheck_single _ _ i fun j hji => by simp [charSignals, hj j hji]]
    exact IsEqualOut_adj u a i hd
  · rw [GeoHashPrefixCheck_single _ _ i fun j hji => by simp [charSignals, hj j hji]]
    exact IsEqualOut_far u a i (hb i).1 (hb i).2 hd

/-- C1 (witness): the amended claim instantiated at the character codes of
"9q8yyk" against itself (output 1), against a copy whose first character is
shifted by 1 (output 0), and against a copy whose first character is shifted
by 2 (nonzero output). -/
theorem C1_circuit_validity_witness :
    GeoHashPrefixCheck 6 (charSignals ![57, 113, 56, 121, 121, 107])
      (charSignals ![57, 113, 56, 121, 121, 107]) = 1 ∧
    GeoHashPrefixCheck 6 (charSignals ![58, 113, 56, 121, 121, 107])
      (charSignals ![57, 113, 56, 121, 121, 107]) = 0 ∧
    GeoHashPrefixCheck 6 (charSignals ![59, 113, 56, 121, 121, 107])
      (charSignals ![57, 113, 56, 121, 121, 107]) ≠ 0 :=
  ⟨C1_circuit_validity.1 _ _ (by decide),
   C1_circuit_validity.2.1 _ _ 0 (by decide) (by decide),
   C1_circuit_validity.2.2 _ _ 0 (by decide) (by decide) (by decide)⟩

/-- C4 (counterexample): there are no length-6 inputs differing at exactly one
position by a character-code difference of exactly 1 for which
`GeoHashPrefixCheck(6)` outputs `isValid = 1` — adjacent codes give
`matched[i] = 1 - (±1)^2 = 0`, hence `isValid = 0`, never 1. -/
theorem C4_counterexample :
    ¬ ∃ (u a : Fin 6 → Nat) (i : Fin 6), (∀ j, j ≠ i → u j = a j) ∧
      (u i = a i + 1 ∨ a i = u i + 1) ∧
      GeoHashPrefixCheck 6 (charSignals u) (charSignals a) = 1 := by
  rintro ⟨u, a, i, hj, hd, h1⟩
  rw [GeoHashPrefixCheck_single _ _ i fun j hji => by simp [charSignals, hj j hji],
    IsEqualOut_adj u a i hd] at h1
  exact zero_ne_one h1

/-- C4 (amended): length-6 inputs differing at exactly one position by a
character-code difference of exactly 1 exist for which `GeoHashPrefixCheck(6)`
outputs `isValid = 0` (adjacent codes are rejected, not falsely accepted);
the anomalous case is instead a difference of 2, where `isValid` is nonzero. -/
theorem C4_adjacent_edge :
    (∃ (u a : Fin 6 → Nat) (i : Fin 6), (∀ j, j ≠ i → u j = a j) ∧
      (u i = a i + 1 ∨ a i = u i + 1) ∧
      GeoHashPrefixCheck 6 (charSignals u) (charSignals a) = 0) ∧
    (∃ (u a : Fin 6 → Nat) (i : Fin 6), (∀ j, j ≠ i → u j = a j) ∧
      u i = a i + 2 ∧
      GeoHashPrefixCheck 6 (charSignals u) (charSignals a) ≠ 0) :=
  ⟨⟨![49, 48, 48, 48, 48, 48], ![48, 48, 48, 48, 48, 48], 0,
      by decide, by decide, by decide⟩,
   ⟨![50, 48, 48, 48, 48, 48], ![48, 48, 48, 48, 48, 48], 0,
      by decide, by decide, by decide⟩⟩

/-! ## powerMod lemmas -/

lemma powerModGo_spec (m : Int) (hm : 1 < m) :
    ∀ (exp : Nat) (base result : Int), 0 ≤ base → 0 ≤ result → result < m →
      powerModGo m exp base result = result * base ^ exp % m := by
  intro exp
  induction exp using Nat.strong_induction_on with
  | _ exp ih =>
    intro base result hb hr hrm
    have hm0 : (0 : Int) < m := by omega
    rw [powerModGo]
    by_cases h0 : exp = 0
    · subst h0
      rw [if_pos rfl, pow_zero, mul_one]
      exact (Int.emod_eq_of_lt hr hrm).symm
    · rw [if_neg h0, Int.tmod_eq_emod (mul_nonneg hb hb) (le_of_lt hm0)]
      have ihm := ih (exp / 2) (Nat.div_lt_self (Nat.pos_of_ne_zero h0) one_lt_two)
      by_cases hodd : exp % 2 = 1
      · rw [if_pos hodd, Int.tmod_eq_emod (mul_nonneg hr hb) (le_of_lt hm0),
          ihm _ _ (Int.emod_nonneg _ (by omega)) (Int.emod_nonneg _ (by omega))
            (Int.emod_lt_of_pos _ hm0)]
        calc (result * base % m) * ((base * base % m) ^ (exp / 2)) % m
            = (result * base) * ((base * base) ^ (exp / 2)) % m :=
              Int.ModEq.mul (Int.mod_modEq (result * base) m)
                (Int.ModEq.pow (exp / 2) (Int.mod_modEq (base * base) m))
          _ = result * base ^ exp % m := by
              conv_rhs => rw [show exp = 2 * (exp / 2) + 1 by omega]
              congr 1
              ring
      · rw [if_neg hodd,
          ihm _ _ (Int.emod_nonneg _ (by omega)) hr hrm]
        calc result * ((base * base % m) ^ (exp / 2)) % m
            = result * ((base * base) ^ (exp / 2)) % m :=
              Int.ModEq.mul (Int.ModEq.refl result)
                (Int.ModEq.pow (exp / 2) (Int.mod_modEq (base * base) m))
          _ = result * base ^ exp % m := by
              conv_rhs => rw [show exp = 2 * (exp / 2) by omega]
              congr 1
              ring

lemma powerMod_spec (base : Int) (exp : Nat) (m : Int) (hm : 1 < m)
    (hb : 0 ≤ base) : powerMod base exp m = base ^ exp % m := by
  rw [powerMod, Int.tmod_eq_emod hb (by omega : (0 : Int) ≤ m),
    powerModGo_spec m hm exp (base % m) 1 (Int.emod_nonneg _ (by omega))
      (by omega) (by omega), one_mul]
  exact (Int.ModEq.pow exp (Int.mod_modEq base m)).eq

/-- C6 (counterexample): "for every base" fails for negative bases, because JS
BigInt `%` truncates toward zero: `powerMod(-1, 1, 3)` returns `-1`, while the
mathematical modular power `(-1)^1 mod 3` is `2`. -/
theorem C6_counterexample :
    powerMod (-1) 1 3 = -1 ∧ ((-1 : Int) ^ 1) % 3 = 2 := by
  constructor
  · rw [powerMod, powerModGo]
    norm_num
    rw [powerModGo]
    norm_num
    decide
  · decide

/-- C6 (amended): for every base ≥ 0, every exponent ≥ 0 and every
modulus > 1, `powerMod(base, exponent, modulus)` returns
`base ^ exponent mod modulus`, a value in `[0, modulus - 1]`. -/
theorem C6_powerMod_correct (base : Int) (exp : Nat) (modulus : Int)
    (hm : 1 < modulus) (hb : 0 ≤ base) :
    powerMod base exp modulus = base ^ exp % modulus ∧
    0 ≤ powerMod base exp modulus ∧ powerMod base exp modulus < modulus := by
  have h := powerMod_spec base exp modulus hm hb
  refine ⟨h, ?_, ?_⟩
  · rw [h]; exact Int.emod_nonneg _ (by omega)
  · rw [h]; exact Int.emod_lt_of_pos _ (by omega)

/-- C6 (witness): the amended claim at base 2, exponent 5, modulus 7. -/
theorem C6_powerMod_correct_witness :
    (1 : Int) < 7 ∧ (0 : Int) ≤ 2 ∧ powerMod 2 5 7 = (2 : Int) ^ 5 % 7 :=
  ⟨by norm_num, by norm_num, (C6_powerMod_correct 2 5 7 (by norm_num) (by norm_num)).1⟩

/-! ## The order of G = 2 modulo P

`2 ^ Q % P = 1` is established by running the square-and-multiply state
machine `pmStep` for 2048 steps, in 16 chunks of 128 kernel-computed steps
each (the intermediate states are precomputed constants). -/

lemma pmSteps_add (m a b : Nat) (s : Nat × Nat × Nat) :
    pmSteps m (a + b) s = pmSteps m b (pmSteps m a s) := by
  rw [pmSteps, pmSteps, pmSteps, Nat.add_comm, Function.iterate_add_apply]

lemma pmStep_spec (m : Nat) (hm : 1 < m) (s : Nat × Nat × Nat) (hr : s.2.2 < m) :
    (pmStep m s).2.2 * (pmStep m s).2.1 ^ (pmStep m s).1 % m
      = s.2.2 * s.2.1 ^ s.1 % m ∧ (pmStep m s).2.2 < m := by
  obtain ⟨e, b, r⟩ := s
  simp only [pmStep]
  by_cases h0 : e = 0
  · rw [if_pos h0]
    exact ⟨rfl, hr⟩
  · rw [if_neg h0]
    simp only
    constructor
    · by_cases hodd : e % 2 = 1
      · rw [if_pos hodd]
        calc (r * b % m) * ((b * b % m) ^ (e / 2)) % m
            = (r * b) * ((b * b) ^ (e / 2)) % m :=
              Nat.ModEq.mul (Nat.mod_modEq (r * b) m)
                (Nat.ModEq.pow (e / 2) (Nat.mod_modEq (b * b) m))
          _ = r * b ^ e % m := by
              conv_rhs => rw [show e = 2 * (e / 2) + 1 by omega]
              congr 1
              ring
      · rw [if_neg hodd]
        calc r * ((b * b % m) ^ (e / 2)) % m
            = r * ((b * b) ^ (e / 2)) % m :=
              Nat.ModEq.mul (Nat.ModEq.refl r)
                (Nat.ModEq.pow (e / 2) (Nat.mod_modEq (b * b) m))
          _ = r * b ^ e % m := by
              conv_rhs => rw [show e = 2 * (e / 2) by omega]
              congr 1
              ring
    · by_cases hodd : e % 2 = 1
      · rw [if_pos hodd]
        exact Nat.mod_lt _ (by omega)
      · rw [if_neg hodd]
        exact hr

lemma pmSteps_spec (m : Nat) (hm : 1 < m) :
    ∀ (k : Nat) (s : Nat × Nat × Nat), s.2.2 < m →
      (pmSteps m k s).2.2 * (pmSteps m k s).2.1 ^ (pmSteps m k s).1 % m
        = s.2.2 * s.2.1 ^ s.1 % m ∧ (pmSteps m k s).2.2 < m := by
  intro k
  induction k with
  | zero => exact fun s hr => ⟨rfl, hr⟩
  | succ k ih =>
    intro s hr
    have hrw : pmSteps m (k + 1) s = pmSteps m k (pmStep m s) := by
      rw [pmSteps, pmSteps, Function.iterate_succ_apply]
    have hstep := pmStep_spec m hm s hr
    have hrest := ih (pmStep m s) hstep.2
    rw [hrw]
    exact ⟨hrest.1.trans hstep.1, hrest.2⟩

lemma pmSteps_run_final (m k e b b2 : Nat) (hm : 1 < m)
    (hrun : pmSteps m k (e, b, 1) = (0, b2, 1)) : b ^ e % m = 1 := by
  have h := (pmSteps_spec m hm k (e, b, 1) hm).1
  rw [hrun] at h
  have h2 : 1 * b2 ^ 0 % m = 1 * b ^ e % m := h
  rw [pow_zero, mul_one, one_mul] at h2
  rw [Nat.mod_eq_of_lt hm] at h2
  exact h2.symm

set_option maxRecDepth 100000 in
lemma two_pow_Q_mod_P : 2 ^ Q % P = 1 := by
  have c0 : pmSteps P 128 (Q, 2, 1) = (47485572590394570702182504219017658476253748163408042778179699234417618948438828748558373358504035736465372921418905480959866135304388931887487541824896388724845635146344577302867576142658055539569836731029707569847480242126520806988322180539791372287958004883517092295365179304228255111026801897068624011790876706363569007665211369744893228459674685904808002954191003942614108969668427122517678667864688260561515225978674464905134849475732649952905846701273725426313065806341169747229738981005761627824974310809454099611045234123881643224809063134811728695436910723881441755784, 30667766547869851859787277321953271073665282315935763572268886474592895424971769856355856850098513019972993082209465183246202750703643070341597748435097869241167811524085490516787582517479183255769187664446625060021467759379893392315683298474499649018838543314780022529204083434099643074471962736682606877210745775147329148045628048810230132756427354568157629837543186191867261373475899693242769676941193619316270164043707590675614896586355805273223321551175777248699691445140098702055812917877095813989931977218708914292820159172421812733703295143654957276100633070818702426575549595190301365762438076189715490527416, 9719435536008210098950311624559699812102688222982679356690564430419584793754202987554679392081755647146420289568044642361598726562481765067239708502865908338966774628359036619857788297187186038829498687575546760203412363874239702876763161797648185524612565511765819495331667167136504605231970698103723703534309041373262359756857247572524729719998085524484518656411851564926197286510829959353232297854440815925521690913400855668489432959183394689724692627485043756697807379837857841451234726762582227500419423687756683326784412418526396398718251745739650465112881919995810986288098284711004400649406080698892525484358) := by decide
  have c1 : pmSteps P 128 (47485572590394570702182504219017658476253748163408042778179699234417618948438828748558373358504035736465372921418905480959866135304388931887487541824896388724845635146344577302867576142658055539569836731029707569847480242126520806988322180539791372287958004883517092295365179304228255111026801897068624011790876706363569007665211369744893228459674685904808002954191003942614108969668427122517678667864688260561515225978674464905134849475732649952905846701273725426313065806341169747229738981005761627824974310809454099611045234123881643224809063134811728695436910723881441755784, 30667766547869851859787277321953271073665282315935763572268886474592895424971769856355856850098513019972993082209465183246202750703643070341597748435097869241167811524085490516787582517479183255769187664446625060021467759379893392315683298474499649018838543314780022529204083434099643074471962736682606877210745775147329148045628048810230132756427354568157629837543186191867261373475899693242769676941193619316270164043707590675614896586355805273223321551175777248699691445140098702055812917877095813989931977218708914292820159172421812733703295143654957276100633070818702426575549595190301365762438076189715490527416, 9719435536008210098950311624559699812102688222982679356690564430419584793754202987554679392081755647146420289568044642361598726562481765067239708502865908338966774628359036619857788297187186038829498687575546760203412363874239702876763161797648185524612565511765819495331667167136504605231970698103723703534309041373262359756857247572524729719998085524484518656411851564926197286510829959353232297854440815925521690913400855668489432959183394689724692627485043756697807379837857841451234726762582227500419423687756683326784412418526396398718251745739650465112881919995810986288098284711004400649406080698892525484358) = (139547555813926188202287898066434325237331319437829664702185162952221079558776377099832064912209264686922689239009238880731160193912162599982041254203901393749152544682910747738122776725314115025833003832833970450560436969677319218794142783799204424597476292907735904997759938825523020631092441754845295050162040543771905561462272630128676001478595712103070910540228284137172316949534828858636545909649328655311367915493440676110218801370406024499574187808262790573906203665607156965624132754326963442506673150666589500059583039965359770508, 30187163837397084835484457130183408513889458158444410512624589115729539703887549383480115893232968190265951838319638231259378522559408776478030838353347506881128220629971198208386693750319210258658284692237773224588199554462345323703135076584369806056856672413427420494567441935976642255707707689714453720641162751348612924720093000308355834651992838938472241877830502852547615290322077870479916436407958416126432244363688166205287608288093877379943897690928230928509973204901507098183730085170917355256871391709446863370682645607342881270396610870192257680388199782627908723104214217160226529261780676350093235339400, 947636346052398565596524285613906274060645138314538684813078057369322355756955868075778655541752263533181962737509618215229044976410596357872527446531696619561149880854300127354011074401233454973028235339466937268865365257691451746503946848738447406943309126488406480422309122446839169485062574037653169054975471554960171920292779811368309470423132816425845751563297374748173695774788005867129696710832048167316638931033918380903887221788459117126253237856009974970238526523803411875715359233644489349455760994321799333926578313447895977625607819952487428209317645558366939371490984137724430098665579090972984198314) := by decide
  have c2 : pmSteps P 128 (139547555813926188202287898066434325237331319437829664702185162952221079558776377099832064912209264686922689239009238880731160193912162599982041254203901393749152544682910747738122776725314115025833003832833970450560436969677319218794142783799204424597476292907735904997759938825523020631092441754845295050162040543771905561462272630128676001478595712103070910540228284137172316949534828858636545909649328655311367915493440676110218801370406024499574187808262790573906203665607156965624132754326963442506673150666589500059583039965359770508, 30187163837397084835484457130183408513889458158444410512624589115729539703887549383480115893232968190265951838319638231259378522559408776478030838353347506881128220629971198208386693750319210258658284692237773224588199554462345323703135076584369806056856672413427420494567441935976642255707707689714453720641162751348612924720093000308355834651992838938472241877830502852547615290322077870479916436407958416126432244363688166205287608288093877379943897690928230928509973204901507098183730085170917355256871391709446863370682645607342881270396610870192257680388199782627908723104214217160226529261780676350093235339400, 947636346052398565596524285613906274060645138314538684813078057369322355756955868075778655541752263533181962737509618215229044976410596357872527446531696619561149880854300127354011074401233454973028235339466937268865365257691451746503946848738447406943309126488406480422309122446839169485062574037653169054975471554960171920292779811368309470423132816425845751563297374748173695774788005867129696710832048167316638931033918380903887221788459117126253237856009974970238526523803411875715359233644489349455760994321799333926578313447895977625607819952487428209317645558366939371490984137724430098665579090972984198314) = (410093408825820243655469046065881286055906249518429035112393872202635053558677645855849094979382803877673182189725178041542743473529754341450934581499179046592208145926270185513651500223299657414743534049880759153350857166842550544115976553991112680200890081464393958955895804602854163399397949714791710162530935006166571581792206468133538351507710668127751163722507556737259349159687013500977520819172214785413171592981481285601449435307680226061535790526147568488201729537875619704723088262761271623, 15748814151839426608069596400434503835628718464550473034858632235764800223277591056435918578877794760191436566354023485027250793861615160310068644329252282468281650243334609977233519205742326477026122587463585907092035610672825100827650774198311432208959290912814631583328151432825829303944750412619342943607888003834305621830619915578120496973846179603090807316509901055762411684994188760029320136563606414381119111527088691295485856445216425794054306505339560950629656691740753532396642410393058874276933432101496013099009822796189179326692823999021592466911361626356507378429595872795708656878863609040309958636650, 18407824363552041610485203505326916985780623956704586924934893886420088161659085523189443914729041564853422365940341081732445698340377269755846764271801858914599755502899273385376743332778617694832890211084189115870540280194925775703082196315158778274571326714590600882637022830647295059192130227207771135782969597902357031593567846407123789914811711843663208492744602147912571247185126975801192607932148724642974600463170075515475526650551715052044596783532674054632808348774220311338116134755930348410155526190531003430924416808676678773774216822599190634069342475645377872399924927736630544556447566432223903849373) := by decide
  have c3 : pmSteps P 128 (410093408825820243655469046065881286055906249518429035112393872202635053558677645855849094979382803877673182189725178041542743473529754341450934581499179046592208145926270185513651500223299657414743534049880759153350857166842550544115976553991112680200890081464393958955895804602854163399397949714791710162530935006166571581792206468133538351507710668127751163722507556737259349159687013500977520819172214785413171592981481285601449435307680226061535790526147568488201729537875619704723088262761271623, 15748814151839426608069596400434503835628718464550473034858632235764800223277591056435918578877794760191436566354023485027250793861615160310068644329252282468281650243334609977233519205742326477026122587463585907092035610672825100827650774198311432208959290912814631583328151432825829303944750412619342943607888003834305621830619915578120496973846179603090807316509901055762411684994188760029320136563606414381119111527088691295485856445216425794054306505339560950629656691740753532396642410393058874276933432101496013099009822796189179326692823999021592466911361626356507378429595872795708656878863609040309958636650, 18407824363552041610485203505326916985780623956704586924934893886420088161659085523189443914729041564853422365940341081732445698340377269755846764271801858914599755502899273385376743332778617694832890211084189115870540280194925775703082196315158778274571326714590600882637022830647295059192130227207771135782969597902357031593567846407123789914811711843663208492744602147912571247185126975801192607932148724642974600463170075515475526650551715052044596783532674054632808348774220311338116134755930348410155526190531003430924416808676678773774216822599190634069342475645377872399924927736630544556447566432223903849373) = (1205156213460516294276038011098783037428475274251229971327058470979054415841306114445046929130670807336613570738952006098251824478525291315971365353402504611531367372670536703348123007294680829887020513584624726600189364717085162921889329599071881596888429934762044470097788673059921772650773521873603874984881875042154463169647779984441228936206496905064565147296499973963182632029642323604865192473605840717232357219244260470063729922137587735814779017375737629, 3786304826951498599583692333402791999336833367463613722020351282264052300808474034544742689992278057787724727176292369687097570069589535414969938141819775493139375865420737156955880512432770438471584890876859878303034479044811468868570179673915192729882698363381302618361330674081466468186223844747503254970927361922758311186264961107512519707213807971816408130870433974835527974170732481857524519215382708608578730011951090162200080576909098801308086045007083745050019646763967044571256782697392487870150471840987592104642926966576730058485039536848515044847735053450674539521968565157470164607741587244359689726331, 25007455474474266701675645550561282445035622186199063949788592261352506432468531830071680728286952984915051531199660711843952827577334725997404301883355026778098152627031906469972186883684051575608090949684432897339831402613071968487862606243781856936178352895524086329286581293554726936611251312939770487511236806089860232241912222955831786784207820696810879960273160977126603915213947130550543360705738369967683249022480628719547110335650673844328369178312728792265038911520535031137461808004263367612280037315222193786309789144664847857568571642456009605517010336595339331652999550414820104451624097232709708169952) := by decide
  have c4 : pmSteps P 128 (1205156213460516294276038011098783037428475274251229971327058470979054415841306114445046929130670807336613570738952006098251824478525291315971365353402504611531367372670536703348123007294680829887020513584624726600189364717085162921889329599071881596888429934762044470097788673059921772650773521873603874984881875042154463169647779984441228936206496905064565147296499973963182632029642323604865192473605840717232357219244260470063729922137587735814779017375737629, 3786304826951498599583692333402791999336833367463613722020351282264052300808474034544742689992278057787724727176292369687097570069589535414969938141819775493139375865420737156955880512432770438471584890876859878303034479044811468868570179673915192729882698363381302618361330674081466468186223844747503254970927361922758311186264961107512519707213807971816408130870433974835527974170732481857524519215382708608578730011951090162200080576909098801308086045007083745050019646763967044571256782697392487870150471840987592104642926966576730058485039536848515044847735053450674539521968565157470164607741587244359689726331, 25007455474474266701675645550561282445035622186199063949788592261352506432468531830071680728286952984915051531199660711843952827577334725997404301883355026778098152627031906469972186883684051575608090949684432897339831402613071968487862606243781856936178352895524086329286581293554726936611251312939770487511236806089860232241912222955831786784207820696810879960273160977126603915213947130550543360705738369967683249022480628719547110335650673844328369178312728792265038911520535031137461808004263367612280037315222193786309789144664847857568571642456009605517010336595339331652999550414820104451624097232709708169952) = (3541635801953039378709766665061481297609046681527690507875359761876204062993351084877971591700356054844613441528304198380651784382110241714512055334840313391840163182338820822588681176955236358644495216269158298716068810030657840944913770572154713961734771354531735740600423935487464218861966130026248512736418801177578353590648202163799617861994296405032238231710859636578027933682111866269281414761834424343650527885544450, 9414760741930084225388308814881305483856124839956573371341603267126782224126364095215020660128549536090142409546149642473942353849366825934986490236470915039289949525371066035457869415794916528182362049262812473381314476574280395900242290643224992687929723338928681587673506606799728685559172803780855599038901865402782195215622697579408368668317895355560410006726652021467483643528853260670768555846060276099648734888485094019343489865798350525444156562238097477527411069347671913631253436806716564431189455561906924869460543672902068685656694450741108345562058001154426139011933846940341755715319285065337121251520, 26766672635430892905007085842651369470277882348086024946708453163880458767650093630305974880891110789557843056923529985542753285542905041965255974649542006501982270923399662280267510553672049011625959487678588284781216539638177583777099068374761883463079011771633863445597408726144960538253110397558234647059564290669779117205696243784768874141003078673084796846941198407587251909015798577784921946343667296568963998738973575029770671274560892612600013874472351649019271238955909070593408786204982994497860360955372907456472033636314216708372633669730241626605766647485084331553267263001396691812591859728139827708382) := by decide
  have c5 : pmSteps P 128 (3541635801953039378709766665061481297609046681527690507875359761876204062993351084877971591700356054844613441528304198380651784382110241714512055334840313391840163182338820822588681176955236358644495216269158298716068810030657840944913770572154713961734771354531735740600423935487464218861966130026248512736418801177578353590648202163799617861994296405032238231710859636578027933682111866269281414761834424343650527885544450, 9414760741930084225388308814881305483856124839956573371341603267126782224126364095215020660128549536090142409546149642473942353849366825934986490236470915039289949525371066035457869415794916528182362049262812473381314476574280395900242290643224992687929723338928681587673506606799728685559172803780855599038901865402782195215622697579408368668317895355560410006726652021467483643528853260670768555846060276099648734888485094019343489865798350525444156562238097477527411069347671913631253436806716564431189455561906924869460543672902068685656694450741108345562058001154426139011933846940341755715319285065337121251520, 26766672635430892905007085842651369470277882348086024946708453163880458767650093630305974880891110789557843056923529985542753285542905041965255974649542006501982270923399662280267510553672049011625959487678588284781216539638177583777099068374761883463079011771633863445597408726144960538253110397558234647059564290669779117205696243784768874141003078673084796846941198407587251909015798577784921946343667296568963998738973575029770671274560892612600013874472351649019271238955909070593408786204982994497860360955372907456472033636314216708372633669730241626605766647485084331553267263001396691812591859728139827708382) = (10407932194664399081804158723191287573207624081921677643896817455755553218653625098764656103344791715370238396303475233067790903570962493228868662300166421073876740320153710090642582201343455507513802887506388707686534264809887826890839162183471554469058142201694310980072044299346261970941428984010193223824162550283890721000620285860130629007219047536077452841646159788726701309208925, 7956427420773773936522363622554848401115960070469033535244646806866318112679262863264440238201503882730711787166238307145346350007124790861392480099562735740589060734093849155679012233506974716922988729728622958802894143056680848340368202991270075470763172887299158341918971085612732194465050231471341308460824186286033480621656811972430010336381565989144459252408338103951953821474152143234657930137863686332718676160592199744576270044094999926403527765096054194224421649018832093633079215569318522134845294768866849123803502536459132752064324251187893716772553396969863368801398657281362774206073265697061774520613, 29405502298127955387360137221779778917371467806020099499748497300876753876710381925502778198558248555122149186166442689177281259554396698490077753298355547882940687456331689692419425874244755181368070479868896503740478394170132920592194345678108872938378255734577870567757820567440769648310673581826463222911484929775004128519766629845094566506870961883800767949760276249670906845407243691850450306362355117540894909406162777272567097842381195664023176255584630606048039079800067492778387142425215946459830646333120455808081196405745885722236001253872174633375419526300195041774080886416013959952828759186291587290201) := by decide
  have c6 : pmSteps P 128 (10407932194664399081804158723191287573207624081921677643896817455755553218653625098764656103344791715370238396303475233067790903570962493228868662300166421073876740320153710090642582201343455507513802887506388707686534264809887826890839162183471554469058142201694310980072044299346261970941428984010193223824162550283890721000620285860130629007219047536077452841646159788726701309208925, 7956427420773773936522363622554848401115960070469033535244646806866318112679262863264440238201503882730711787166238307145346350007124790861392480099562735740589060734093849155679012233506974716922988729728622958802894143056680848340368202991270075470763172887299158341918971085612732194465050231471341308460824186286033480621656811972430010336381565989144459252408338103951953821474152143234657930137863686332718676160592199744576270044094999926403527765096054194224421649018832093633079215569318522134845294768866849123803502536459132752064324251187893716772553396969863368801398657281362774206073265697061774520613, 29405502298127955387360137221779778917371467806020099499748497300876753876710381925502778198558248555122149186166442689177281259554396698490077753298355547882940687456331689692419425874244755181368070479868896503740478394170132920592194345678108872938378255734577870567757820567440769648310673581826463222911484929775004128519766629845094566506870961883800767949760276249670906845407243691850450306362355117540894909406162777272567097842381195664023176255584630606048039079800067492778387142425215946459830646333120455808081196405745885722236001253872174633375419526300195041774080886416013959952828759186291587290201) = (30586163746423534735660370005368802598107204070858311604126554211828702755807646039675549111493678749138427674175608173610898784543902878207577568202763009333184604782513630970161528800351564776136643885381435329449949450749173830409049074359733824045922077241049777736679623995874780058038549448866785792399257037510101330346687066588901618640815, 14811154943736632420054700994481435863934105899392317703923101865355999446953332468887553586154680012835639432389005925585776718884473669182963136732028045271838038109094945972568970937317379834957847231208244962375965904508319421532671914496822222898584604136610060636158214337460376992486242272784605688901387563216768979108816649526878986196080881232412809409071963183690955355145356847401122317184407750299519746021087282978241367950049311610649364240173233432613856846878414343776483653377383391641209285509729112456877725684878846679382620485068796846291654093480526504185592529673647357069802388693131235966481, 4277449970656805664753989163881442712122377540630138175779836660911974185056462661497978776309742901662828737772547697319630956245994223494567330907625545129335457359279462930987817805934570125687007028924895528287191342126900737345027545962091148220089920522541015299431593733122450196543767680351636356388089225230666695786149582013011835010196608866156401574426789651468658255537862843748350577522078851693850305452943249819159380708346283293520629848393917687203532614380214757836964742631429660747675174041566519360702754278610775079403187135846522245372595627372859827706079933214943987174884080818363971949120) := by decide
  have c7 : pmSteps P 128 (30586163746423534735660370005368802598107204070858311604126554211828702755807646039675549111493678749138427674175608173610898784543902878207577568202763009333184604782513630970161528800351564776136643885381435329449949450749173830409049074359733824045922077241049777736679623995874780058038549448866785792399257037510101330346687066588901618640815, 14811154943736632420054700994481435863934105899392317703923101865355999446953332468887553586154680012835639432389005925585776718884473669182963136732028045271838038109094945972568970937317379834957847231208244962375965904508319421532671914496822222898584604136610060636158214337460376992486242272784605688901387563216768979108816649526878986196080881232412809409071963183690955355145356847401122317184407750299519746021087282978241367950049311610649364240173233432613856846878414343776483653377383391641209285509729112456877725684878846679382620485068796846291654093480526504185592529673647357069802388693131235966481, 4277449970656805664753989163881442712122377540630138175779836660911974185056462661497978776309742901662828737772547697319630956245994223494567330907625545129335457359279462930987817805934570125687007028924895528287191342126900737345027545962091148220089920522541015299431593733122450196543767680351636356388089225230666695786149582013011835010196608866156401574426789651468658255537862843748350577522078851693850305452943249819159380708346283293520629848393917687203532614380214757836964742631429660747675174041566519360702754278610775079403187135846522245372595627372859827706079933214943987174884080818363971949120) = (89884656743115795385419578396893726598930148024378005853222211842098590108079259684473916897932462770751090282742990251823220274099619550025396438501677908319614776568119538254367879957411287431287503712651038723856294775478968889212221213308667363814649693834354602803025135405421452655800232865591551188866, 10190930933771449073163193006404047724637365000156534509393049021111690137780289803145235644922072489890839996680519589754182656144306559859627962684801609626286063957240919586980647774905876142913318879403601995655843643352359654132111690118684733664545460491545152873167081877755176876865299152100394418823146975656300728400779526408107363726238677990625028971382975395224298000610672995491032687789051231970211552830867002375088714474951852241166624585687346651144658232633058821811236473343702974095081282543645086688581679177693151366667948940672303823706485820267765830065606194967982405648131518903600502904307, 5011960905283312931153313039022593330378762184949239280605919094313166671768384390241116920748313240285518890905933006070496774941854566348449558489456070139732899338377636165595958681555939509343566223582913846484037399440539742020973068307261232383634329084276436111383773617307991070252310779086986244925078564916131726425777481073294030818616234394189646064222434049536962239689851732216989137562530513943526520758229517055249914760835680512894727150527756410530743116666855213356732692193210673743296393773295986582929871242230689609642079721920981026026656866758841871104551669426774878175709769205422644300552) := by decide
  have c8 : pmSteps P 128 (89884656743115795385419578396893726598930148024378005853222211842098590108079259684473916897932462770751090282742990251823220274099619550025396438501677908319614776568119538254367879957411287431287503712651038723856294775478968889212221213308667363814649693834354602803025135405421452655800232865591551188866, 10190930933771449073163193006404047724637365000156534509393049021111690137780289803145235644922072489890839996680519589754182656144306559859627962684801609626286063957240919586980647774905876142913318879403601995655843643352359654132111690118684733664545460491545152873167081877755176876865299152100394418823146975656300728400779526408107363726238677990625028971382975395224298000610672995491032687789051231970211552830867002375088714474951852241166624585687346651144658232633058821811236473343702974095081282543645086688581679177693151366667948940672303823706485820267765830065606194967982405648131518903600502904307, 5011960905283312931153313039022593330378762184949239280605919094313166671768384390241116920748313240285518890905933006070496774941854566348449558489456070139732899338377636165595958681555939509343566223582913846484037399440539742020973068307261232383634329084276436111383773617307991070252310779086986244925078564916131726425777481073294030818616234394189646064222434049536962239689851732216989137562530513943526520758229517055249914760835680512894727150527756410530743116666855213356732692193210673743296393773295986582929871242230689609642079721920981026026656866758841871104551669426774878175709769205422644300552) = (264147265567832623173096911768663932778759260742994056178062349108983505359891938707367438236917876115144047532856319035407913813779199727212219416792309897907075845365908036201647930526828361452975471032619245354242131887307936036920257995373078296863113168850086367219, 8208657529354454284540069146091012223869923954400877503078878059036328187333303067587835408918243528539951227249266275206602247158869329657035056711995942827846375164247978067626869246157152789626839783833775678714677712350150692081039240709376577273189119127526555674969672920185621799100229092416945956299955325443043192079051345784813466947986577859255696573336207584365498587164999200633975190020105896480820406205786204553009634710953218849267876161531542044636173405402308339515020627818668060592055440324081135687107706315808221384843675166651037528940250255403669652724243047001840933384069083231421502228394, 9964508372329008952374266475442815270544940463480588626663462562672543247019149509811573955347967163507758263012006067010871994582281689043666482231090169954907737268598062134866907156586036643712858749676309645800941471641702838001176394853230691116677328017750941367235357721522817219128057520772314747672090448382348842113649909358553258888554641464627590261641744827632970413454007444071246384618858564965549382581960142578238821384264740951749220918137418966987153814041000436794388776088637918642851726832408555460597200947594895738035575472802870413542897201378395402926577397749961871902569975540173129844680) := by decide
  have c9 : pmSteps P 128 (264147265567832623173096911768663932778759260742994056178062349108983505359891938707367438236917876115144047532856319035407913813779199727212219416792309897907075845365908036201647930526828361452975471032619245354242131887307936036920257995373078296863113168850086367219, 8208657529354454284540069146091012223869923954400877503078878059036328187333303067587835408918243528539951227249266275206602247158869329657035056711995942827846375164247978067626869246157152789626839783833775678714677712350150692081039240709376577273189119127526555674969672920185621799100229092416945956299955325443043192079051345784813466947986577859255696573336207584365498587164999200633975190020105896480820406205786204553009634710953218849267876161531542044636173405402308339515020627818668060592055440324081135687107706315808221384843675166651037528940250255403669652724243047001840933384069083231421502228394, 9964508372329008952374266475442815270544940463480588626663462562672543247019149509811573955347967163507758263012006067010871994582281689043666482231090169954907737268598062134866907156586036643712858749676309645800941471641702838001176394853230691116677328017750941367235357721522817219128057520772314747672090448382348842113649909358553258888554641464627590261641744827632970413454007444071246384618858564965549382581960142578238821384264740951749220918137418966987153814041000436794388776088637918642851726832408555460597200947594895738035575472802870413542897201378395402926577397749961871902569975540173129844680) = (776259046150354467565459065629240877815667024717257156601175597451483119974551053629334726938295821221455003840144432114575401859459023171316363806515641491872190410445098144254585345658296587683734775881558541076584157656796847094, 1114802682618071785527457250087029621476438541379611814230725729075569465458045396072895674038794415815393404709559126131517573764845352391441184453789684427797636483649637302864732823544541002628626790061201721793550054198651469393920523490494156997604022107864704769494910528569743381994516796514246194444208324097540643689431039053295153100161870496915997061450184534137486629108607917865645251792854704624460408930655661693010426837159856464030476972982588742872626349709086174549797502192625160453537272329770718339498474142667743420079123183431996834025746510660027557944861688476998819212327908759729642564917, 10846493487781549162135926689316720205031256324138927009304355729014495704741376826840995913776765486302768478677460459011896516940831387577820059218785508286345163267574335567445403689084683489336276267327488955222479097774250353597391542947427633840304019385800433079677691783477659232348397298722929438274144522698385927287328739613272287752416657269748703428380740503862130545170175394155046491847130381505710221295717396960544725552786429663526943305950459389290798616807401486372671000002169152438614360395783281390762702176921927811140694588220723698903325992842997724086163759305942396726949334707049967239396) := by decide
  have c10 : pmSteps P 128 (776259046150354467565459065629240877815667024717257156601175597451483119974551053629334726938295821221455003840144432114575401859459023171316363806515641491872190410445098144254585345658296587683734775881558541076584157656796847094, 1114802682618071785527457250087029621476438541379611814230725729075569465458045396072895674038794415815393404709559126131517573764845352391441184453789684427797636483649637302864732823544541002628626790061201721793550054198651469393920523490494156997604022107864704769494910528569743381994516796514246194444208324097540643689431039053295153100161870496915997061450184534137486629108607917865645251792854704624460408930655661693010426837159856464030476972982588742872626349709086174549797502192625160453537272329770718339498474142667743420079123183431996834025746510660027557944861688476998819212327908759729642564917, 10846493487781549162135926689316720205031256324138927009304355729014495704741376826840995913776765486302768478677460459011896516940831387577820059218785508286345163267574335567445403689084683489336276267327488955222479097774250353597391542947427633840304019385800433079677691783477659232348397298722929438274144522698385927287328739613272287752416657269748703428380740503862130545170175394155046491847130381505710221295717396960544725552786429663526943305950459389290798616807401486372671000002169152438614360395783281390762702176921927811140694588220723698903325992842997724086163759305942396726949334707049967239396) = (2281220308811097609294047023648258317886431873652546567316726884582577588813859623830672232301447255550017167696034149963268606470255130788727407307233612423036253156479729825201171281340219235, 2285030081115392217438086383964192427469512773728450032311089015316080683844134673499143002516910843137179617166116911994729597657861717062888389350882156609611841703430847789961025446722365842767779283308531083261196186737135439683974589039190763003317371067378265411931684003291370979477587495856330962078420733775938405918508468375216522939910835543206160402222233797099891688780756571808232121819611390157886229479747268401650302218010357666716422529435891218472053666478665032320672979535340808278322953023619198519560810832574208983681327673600690577294834443140675980703441713092702695153561512340404779120154, 9680170852992639647268691933042663482209779163737128616977418271789963843541158437372290812927715880586251616379943655493716859745193532666384079170461707419520867834037760955617670150278435095379875736478850323535573950661778051654947495266650201542770747374808503557955511141038775683635815608828524656434915930563362130664255441461214833472610866046050413191456697497070221526576046201764101978411650386769255579986443047509259051179451484857626417056053641020359644659319851232632349426853867853204027050079604325174350054115041359801295080993005372220244943305680807803213106647193397351942359309428558939784113) := by decide
  have c11 : pmSteps P 128 (2281220308811097609294047023648258317886431873652546567316726884582577588813859623830672232301447255550017167696034149963268606470255130788727407307233612423036253156479729825201171281340219235, 2285030081115392217438086383964192427469512773728450032311089015316080683844134673499143002516910843137179617166116911994729597657861717062888389350882156609611841703430847789961025446722365842767779283308531083261196186737135439683974589039190763003317371067378265411931684003291370979477587495856330962078420733775938405918508468375216522939910835543206160402222233797099891688780756571808232121819611390157886229479747268401650302218010357666716422529435891218472053666478665032320672979535340808278322953023619198519560810832574208983681327673600690577294834443140675980703441713092702695153561512340404779120154, 9680170852992639647268691933042663482209779163737128616977418271789963843541158437372290812927715880586251616379943655493716859745193532666384079170461707419520867834037760955617670150278435095379875736478850323535573950661778051654947495266650201542770747374808503557955511141038775683635815608828524656434915930563362130664255441461214833472610866046050413191456697497070221526576046201764101978411650386769255579986443047509259051179451484857626417056053641020359644659319851232632349426853867853204027050079604325174350054115041359801295080993005372220244943305680807803213106647193397351942359309428558939784113) = (6703903964971298549709022036529076590036057655431921067058648189292448937452961076766550464320764224800430754986462961454205520583670160191339004399946267, 29704262471343105323606450742975937575366996630392577964480462285491549597961169925552718162026988560003665711280679590080358218456211356245167450966478466228446649910166111420922878107507549690694062648549483914258463204999046701986005861690675542531615322582107416278474802550937883285290532403406468200253260385596282577979320096083399362566489469385832248733344842874404299320300284824409256109616850287355719018068882970501258372592282301159276911074855422763847688566387407111965353144542929980825775432474635197897814173488162062627821495657850413699637895097878113846562309792916645104775889638581619720473238, 7146098003890617324711450384188583828442006342346467645294794765381705413740548710371310628103134362779814712720199388936084128638319701401388218307096682277603723674331445009588688142210843846729752213731189836732815073108603527449919878744052038517067585442526271538816041662730168950824526769944699759397579957627504137671930050554303237825778604563956495899303824799620422168822415039870451279675084736108907853659771233148413736513592010197554503642705905362434521904011304412015402450344365955414913706924664482315523572817786489246025463737488945022277129056265177458209134053316182854439287264383665197155638) := by decide
  have c12 : pmSteps P 128 (6703903964971298549709022036529076590036057655431921067058648189292448937452961076766550464320764224800430754986462961454205520583670160191339004399946267, 29704262471343105323606450742975937575366996630392577964480462285491549597961169925552718162026988560003665711280679590080358218456211356245167450966478466228446649910166111420922878107507549690694062648549483914258463204999046701986005861690675542531615322582107416278474802550937883285290532403406468200253260385596282577979320096083399362566489469385832248733344842874404299320300284824409256109616850287355719018068882970501258372592282301159276911074855422763847688566387407111965353144542929980825775432474635197897814173488162062627821495657850413699637895097878113846562309792916645104775889638581619720473238, 7146098003890617324711450384188583828442006342346467645294794765381705413740548710371310628103134362779814712720199388936084128638319701401388218307096682277603723674331445009588688142210843846729752213731189836732815073108603527449919878744052038517067585442526271538816041662730168950824526769944699759397579957627504137671930050554303237825778604563956495899303824799620422168822415039870451279675084736108907853659771233148413736513592010197554503642705905362434521904011304412015402450344365955414913706924664482315523572817786489246025463737488945022277129056265177458209134053316182854439287264383665197155638) = (19701003098197239605910326679637872975736838903925447681773318702122928119615972804839987416886113217904270500299374, 27295657347624463752042660454007794841566733397109589849410736149122914178000177677703165106631797642763623881465991357798536675862411977142258154518642650895035795409109498579312702175625734562145261542733187847207470121485444632513285929655593163030352140157655717305393628729817795481947592979314312067272743411975855683442980524267296470040706633606244076954227312134474321045644990214562135242990811995237611133173876604938732311238225588682338247993027168448619662902402306758986160799038806053268926107987814727312984238976857651605193517454272570075848249498334957602026315097430630686417199428125151997104314, 22300020830175843140636311588574698076500147410561610264945216790551905346826420717696338975967587712569332280953738191964652983301879173712092082428056454999306879470811694658360658368651155532243837068466162074805152737348035149601601467487029315853448051050893729353831269776692534082498437999405921298595230969369887856475196584481221696502900431273693857563608664625281262096526082578489404950112371773356937074590788073220706346335355523777569871855884358780504031021212026330293977009994900211889894178371342380125470851280665664783345314005948456199983716941072411639571805312722671049526355396039074284136538) := by decide
  have c13 : pmSteps P 128 (19701003098197239605910326679637872975736838903925447681773318702122928119615972804839987416886113217904270500299374, 27295657347624463752042660454007794841566733397109589849410736149122914178000177677703165106631797642763623881465991357798536675862411977142258154518642650895035795409109498579312702175625734562145261542733187847207470121485444632513285929655593163030352140157655717305393628729817795481947592979314312067272743411975855683442980524267296470040706633606244076954227312134474321045644990214562135242990811995237611133173876604938732311238225588682338247993027168448619662902402306758986160799038806053268926107987814727312984238976857651605193517454272570075848249498334957602026315097430630686417199428125151997104314, 22300020830175843140636311588574698076500147410561610264945216790551905346826420717696338975967587712569332280953738191964652983301879173712092082428056454999306879470811694658360658368651155532243837068466162074805152737348035149601601467487029315853448051050893729353831269776692534082498437999405921298595230969369887856475196584481221696502900431273693857563608664625281262096526082578489404950112371773356937074590788073220706346335355523777569871855884358780504031021212026330293977009994900211889894178371342380125470851280665664783345314005948456199983716941072411639571805312722671049526355396039074284136538) = (57896044618658097711111953723866430865016614291744982423110545639873308780090, 8949517413436002330626804270369018807880675951046569268094205428179143917044556416990184360504125889073770679709637450940130436383429353623050879632042190323242771290192992056983815013974898384357554352463079993754361004661350933614379222975995684036165203365658016599344654465674067592749483499253821509331688652373180575724658384686834769465504063579694511961659936932961182208488290779568981822453536743272407189535967252562757323015298391743532563387458233273803944200810861135109476906674611260144295803999666096723929670665073616199400634255265947394717217304399789191986733244278989999443284599189614758997743, 16987726190081492789865629322748069883521907224621661973491416418796944880041633744656976714986879299832391353124416768410859042899830553575128518281605866288435040938947916439522200988706193977228706935617812498327257463786763812427666420351838715717099024294381368739763449405670914962759993107741710637027062771411940065340489689864471770422022209675351475129206136954228456372920533115916257427348049844010457588999081596719133740766770369662048210825917650817006152076455861495295342215066435000986178669447223099926705403931495202887089584365507579125999444876039600104057225834332204416478959596689135701806855) := by decide
  have c14 : pmSteps P 128 (57896044618658097711111953723866430865016614291744982423110545639873308780090, 8949517413436002330626804270369018807880675951046569268094205428179143917044556416990184360504125889073770679709637450940130436383429353623050879632042190323242771290192992056983815013974898384357554352463079993754361004661350933614379222975995684036165203365658016599344654465674067592749483499253821509331688652373180575724658384686834769465504063579694511961659936932961182208488290779568981822453536743272407189535967252562757323015298391743532563387458233273803944200810861135109476906674611260144295803999666096723929670665073616199400634255265947394717217304399789191986733244278989999443284599189614758997743, 16987726190081492789865629322748069883521907224621661973491416418796944880041633744656976714986879299832391353124416768410859042899830553575128518281605866288435040938947916439522200988706193977228706935617812498327257463786763812427666420351838715717099024294381368739763449405670914962759993107741710637027062771411940065340489689864471770422022209675351475129206136954228456372920533115916257427348049844010457588999081596719133740766770369662048210825917650817006152076455861495295342215066435000986178669447223099926705403931495202887089584365507579125999444876039600104057225834332204416478959596689135701806855) = (170141183460469231729707951137106452762, 838742655496689163644932386715276548208731507757453036514360531694969098544065944404357998289420449872926720561929104108995121151411194764748197595679554621062165733994998504380390420399360902821621935903619025115845364523558269135383268783904511968585132381768707349109757016514156721410636100897437973308130311194435417216344066076978596145619362741151617436149773085537103935624138375161347337925288190827780887033336416765678914232733339967303346961103788198771088214611668591563353428391462122326906645790379854527481210105382231386935617748668666685848685608112489085320175345358256556971488743418790616304123, 7479955655476071265340119567454690493154301331346764306432568059470985781716158854534380092579231780972074884181753715299257022451385574063383583327376574331488410343219058481013968797649033545577704807110097743948382284336631296665402069633643419428921961818143756282869166597831238237087739829959873464980864233652855272988157982559864094517207473145000954268084725791068992354432905261729602082194892310358417282188756053834142495451067213625256031439335404362137534509102625682313754945789744686131486954719863343799169936347788047381514217627558900334434417834341184858758062460939549527240579541775134635674569) := by decide
  have c15 : pmSteps P 128 (170141183460469231729707951137106452762, 838742655496689163644932386715276548208731507757453036514360531694969098544065944404357998289420449872926720561929104108995121151411194764748197595679554621062165733994998504380390420399360902821621935903619025115845364523558269135383268783904511968585132381768707349109757016514156721410636100897437973308130311194435417216344066076978596145619362741151617436149773085537103935624138375161347337925288190827780887033336416765678914232733339967303346961103788198771088214611668591563353428391462122326906645790379854527481210105382231386935617748668666685848685608112489085320175345358256556971488743418790616304123, 7479955655476071265340119567454690493154301331346764306432568059470985781716158854534380092579231780972074884181753715299257022451385574063383583327376574331488410343219058481013968797649033545577704807110097743948382284336631296665402069633643419428921961818143756282869166597831238237087739829959873464980864233652855272988157982559864094517207473145000954268084725791068992354432905261729602082194892310358417282188756053834142495451067213625256031439335404362137534509102625682313754945789744686131486954719863343799169936347788047381514217627558900334434417834341184858758062460939549527240579541775134635674569) = (0, 7178502963762810568145099737579539522634591030067475538147460678270844638021495026509863863585255782933082031305798131338013555541418710740843372533381293866051157256502133552187713424273940184150134350644690843877178605000728024514764041841454018228564205006291622219923303270794042823744518880325249194026624454415999730824584197539410540037043136359471431062100503273464112338359589651432322354250757148384477994254742933688978351578719649300637187063175019050545930526282227947392156883150160108053937650952078443612354254050051547280718727412646984964666012973533639136301336728877125529081143393990419139355458, 1) := by decide
  have h14 : pmSteps P 256 (57896044618658097711111953723866430865016614291744982423110545639873308780090, 8949517413436002330626804270369018807880675951046569268094205428179143917044556416990184360504125889073770679709637450940130436383429353623050879632042190323242771290192992056983815013974898384357554352463079993754361004661350933614379222975995684036165203365658016599344654465674067592749483499253821509331688652373180575724658384686834769465504063579694511961659936932961182208488290779568981822453536743272407189535967252562757323015298391743532563387458233273803944200810861135109476906674611260144295803999666096723929670665073616199400634255265947394717217304399789191986733244278989999443284599189614758997743, 16987726190081492789865629322748069883521907224621661973491416418796944880041633744656976714986879299832391353124416768410859042899830553575128518281605866288435040938947916439522200988706193977228706935617812498327257463786763812427666420351838715717099024294381368739763449405670914962759993107741710637027062771411940065340489689864471770422022209675351475129206136954228456372920533115916257427348049844010457588999081596719133740766770369662048210825917650817006152076455861495295342215066435000986178669447223099926705403931495202887089584365507579125999444876039600104057225834332204416478959596689135701806855) = (0, 7178502963762810568145099737579539522634591030067475538147460678270844638021495026509863863585255782933082031305798131338013555541418710740843372533381293866051157256502133552187713424273940184150134350644690843877178605000728024514764041841454018228564205006291622219923303270794042823744518880325249194026624454415999730824584197539410540037043136359471431062100503273464112338359589651432322354250757148384477994254742933688978351578719649300637187063175019050545930526282227947392156883150160108053937650952078443612354254050051547280718727412646984964666012973533639136301336728877125529081143393990419139355458, 1) := by
    rw [show (256 : Nat) = 128 + 128 by norm_num, pmSteps_add, c14, c15]
  have h13 : pmSteps P 384 (19701003098197239605910326679637872975736838903925447681773318702122928119615972804839987416886113217904270500299374, 27295657347624463752042660454007794841566733397109589849410736149122914178000177677703165106631797642763623881465991357798536675862411977142258154518642650895035795409109498579312702175625734562145261542733187847207470121485444632513285929655593163030352140157655717305393628729817795481947592979314312067272743411975855683442980524267296470040706633606244076954227312134474321045644990214562135242990811995237611133173876604938732311238225588682338247993027168448619662902402306758986160799038806053268926107987814727312984238976857651605193517454272570075848249498334957602026315097430630686417199428125151997104314, 22300020830175843140636311588574698076500147410561610264945216790551905346826420717696338975967587712569332280953738191964652983301879173712092082428056454999306879470811694658360658368651155532243837068466162074805152737348035149601601467487029315853448051050893729353831269776692534082498437999405921298595230969369887856475196584481221696502900431273693857563608664625281262096526082578489404950112371773356937074590788073220706346335355523777569871855884358780504031021212026330293977009994900211889894178371342380125470851280665664783345314005948456199983716941072411639571805312722671049526355396039074284136538) = (0, 7178502963762810568145099737579539522634591030067475538147460678270844638021495026509863863585255782933082031305798131338013555541418710740843372533381293866051157256502133552187713424273940184150134350644690843877178605000728024514764041841454018228564205006291622219923303270794042823744518880325249194026624454415999730824584197539410540037043136359471431062100503273464112338359589651432322354250757148384477994254742933688978351578719649300637187063175019050545930526282227947392156883150160108053937650952078443612354254050051547280718727412646984964666012973533639136301336728877125529081143393990419139355458, 1) := by
    rw [show (384 : Nat) = 128 + 256 by norm_num, pmSteps_add, c13, h14]
  have h12 : pmSteps P 512 (6703903964971298549709022036529076590036057655431921067058648189292448937452961076766550464320764224800430754986462961454205520583670160191339004399946267, 29704262471343105323606450742975937575366996630392577964480462285491549597961169925552718162026988560003665711280679590080358218456211356245167450966478466228446649910166111420922878107507549690694062648549483914258463204999046701986005861690675542531615322582107416278474802550937883285290532403406468200253260385596282577979320096083399362566489469385832248733344842874404299320300284824409256109616850287355719018068882970501258372592282301159276911074855422763847688566387407111965353144542929980825775432474635197897814173488162062627821495657850413699637895097878113846562309792916645104775889638581619720473238, 7146098003890617324711450384188583828442006342346467645294794765381705413740548710371310628103134362779814712720199388936084128638319701401388218307096682277603723674331445009588688142210843846729752213731189836732815073108603527449919878744052038517067585442526271538816041662730168950824526769944699759397579957627504137671930050554303237825778604563956495899303824799620422168822415039870451279675084736108907853659771233148413736513592010197554503642705905362434521904011304412015402450344365955414913706924664482315523572817786489246025463737488945022277129056265177458209134053316182854439287264383665197155638) = (0, 7178502963762810568145099737579539522634591030067475538147460678270844638021495026509863863585255782933082031305798131338013555541418710740843372533381293866051157256502133552187713424273940184150134350644690843877178605000728024514764041841454018228564205006291622219923303270794042823744518880325249194026624454415999730824584197539410540037043136359471431062100503273464112338359589651432322354250757148384477994254742933688978351578719649300637187063175019050545930526282227947392156883150160108053937650952078443612354254050051547280718727412646984964666012973533639136301336728877125529081143393990419139355458, 1) := by
    rw [show (512 : Nat) = 128 + 384 by norm_num, pmSteps_add, c12, h13]
  have h11 : pmSteps P 640 (2281220308811097609294047023648258317886431873652546567316726884582577588813859623830672232301447255550017167696034149963268606470255130788727407307233612423036253156479729825201171281340219235, 2285030081115392217438086383964192427469512773728450032311089015316080683844134673499143002516910843137179617166116911994729597657861717062888389350882156609611841703430847789961025446722365842767779283308531083261196186737135439683974589039190763003317371067378265411931684003291370979477587495856330962078420733775938405918508468375216522939910835543206160402222233797099891688780756571808232121819611390157886229479747268401650302218010357666716422529435891218472053666478665032320672979535340808278322953023619198519560810832574208983681327673600690577294834443140675980703441713092702695153561512340404779120154, 9680170852992639647268691933042663482209779163737128616977418271789963843541158437372290812927715880586251616379943655493716859745193532666384079170461707419520867834037760955617670150278435095379875736478850323535573950661778051654947495266650201542770747374808503557955511141038775683635815608828524656434915930563362130664255441461214833472610866046050413191456697497070221526576046201764101978411650386769255579986443047509259051179451484857626417056053641020359644659319851232632349426853867853204027050079604325174350054115041359801295080993005372220244943305680807803213106647193397351942359309428558939784113) = (0, 7178502963762810568145099737579539522634591030067475538147460678270844638021495026509863863585255782933082031305798131338013555541418710740843372533381293866051157256502133552187713424273940184150134350644690843877178605000728024514764041841454018228564205006291622219923303270794042823744518880325249194026624454415999730824584197539410540037043136359471431062100503273464112338359589651432322354250757148384477994254742933688978351578719649300637187063175019050545930526282227947392156883150160108053937650952078443612354254050051547280718727412646984964666012973533639136301336728877125529081143393990419139355458, 1) := by
    rw [show (640 : Nat) = 128 + 512 by norm_num, pmSteps_add, c11, h12]
  have h10 : pmSteps P 768 (776259046150354467565459065629240877815667024717257156601175597451483119974551053629334726938295821221455003840144432114575401859459023171316363806515641491872190410445098144254585345658296587683734775881558541076584157656796847094, 1114802682618071785527457250087029621476438541379611814230725729075569465458045396072895674038794415815393404709559126131517573764845352391441184453789684427797636483649637302864732823544541002628626790061201721793550054198651469393920523490494156997604022107864704769494910528569743381994516796514246194444208324097540643689431039053295153100161870496915997061450184534137486629108607917865645251792854704624460408930655661693010426837159856464030476972982588742872626349709086174549797502192625160453537272329770718339498474142667743420079123183431996834025746510660027557944861688476998819212327908759729642564917, 10846493487781549162135926689316720205031256324138927009304355729014495704741376826840995913776765486302768478677460459011896516940831387577820059218785508286345163267574335567445403689084683489336276267327488955222479097774250353597391542947427633840304019385800433079677691783477659232348397298722929438274144522698385927287328739613272287752416657269748703428380740503862130545170175394155046491847130381505710221295717396960544725552786429663526943305950459389290798616807401486372671000002169152438614360395783281390762702176921927811140694588220723698903325992842997724086163759305942396726949334707049967239396) = (0, 7178502963762810568145099737579539522634591030067475538147460678270844638021495026509863863585255782933082031305798131338013555541418710740843372533381293866051157256502133552187713424273940184150134350644690843877178605000728024514764041841454018228564205006291622219923303270794042823744518880325249194026624454415999730824584197539410540037043136359471431062100503273464112338359589651432322354250757148384477994254742933688978351578719649300637187063175019050545930526282227947392156883150160108053937650952078443612354254050051547280718727412646984964666012973533639136301336728877125529081143393990419139355458, 1) := by
    rw [show (768 : Nat) = 128 + 640 by norm_num, pmSteps_add, c10, h11]
  have h9 : pmSteps P 896 (264147265567832623173096911768663932778759260742994056178062349108983505359891938707367438236917876115144047532856319035407913813779199727212219416792309897907075845365908036201647930526828361452975471032619245354242131887307936036920257995373078296863113168850086367219, 8208657529354454284540069146091012223869923954400877503078878059036328187333303067587835408918243528539951227249266275206602247158869329657035056711995942827846375164247978067626869246157152789626839783833775678714677712350150692081039240709376577273189119127526555674969672920185621799100229092416945956299955325443043192079051345784813466947986577859255696573336207584365498587164999200633975190020105896480820406205786204553009634710953218849267876161531542044636173405402308339515020627818668060592055440324081135687107706315808221384843675166651037528940250255403669652724243047001840933384069083231421502228394, 9964508372329008952374266475442815270544940463480588626663462562672543247019149509811573955347967163507758263012006067010871994582281689043666482231090169954907737268598062134866907156586036643712858749676309645800941471641702838001176394853230691116677328017750941367235357721522817219128057520772314747672090448382348842113649909358553258888554641464627590261641744827632970413454007444071246384618858564965549382581960142578238821384264740951749220918137418966987153814041000436794388776088637918642851726832408555460597200947594895738035575472802870413542897201378395402926577397749961871902569975540173129844680) = (0, 7178502963762810568145099737579539522634591030067475538147460678270844638021495026509863863585255782933082031305798131338013555541418710740843372533381293866051157256502133552187713424273940184150134350644690843877178605000728024514764041841454018228564205006291622219923303270794042823744518880325249194026624454415999730824584197539410540037043136359471431062100503273464112338359589651432322354250757148384477994254742933688978351578719649300637187063175019050545930526282227947392156883150160108053937650952078443612354254050051547280718727412646984964666012973533639136301336728877125529081143393990419139355458, 1) := by
    rw [show (896 : Nat) = 128 + 768 by norm_num, pmSteps_add, c9, h10]
  have h8 : pmSteps P 1024 (89884656743115795385419578396893726598930148024378005853222211842098590108079259684473916897932462770751090282742990251823220274099619550025396438501677908319614776568119538254367879957411287431287503712651038723856294775478968889212221213308667363814649693834354602803025135405421452655800232865591551188866, 10190930933771449073163193006404047724637365000156534509393049021111690137780289803145235644922072489890839996680519589754182656144306559859627962684801609626286063957240919586980647774905876142913318879403601995655843643352359654132111690118684733664545460491545152873167081877755176876865299152100394418823146975656300728400779526408107363726238677990625028971382975395224298000610672995491032687789051231970211552830867002375088714474951852241166624585687346651144658232633058821811236473343702974095081282543645086688581679177693151366667948940672303823706485820267765830065606194967982405648131518903600502904307, 5011960905283312931153313039022593330378762184949239280605919094313166671768384390241116920748313240285518890905933006070496774941854566348449558489456070139732899338377636165595958681555939509343566223582913846484037399440539742020973068307261232383634329084276436111383773617307991070252310779086986244925078564916131726425777481073294030818616234394189646064222434049536962239689851732216989137562530513943526520758229517055249914760835680512894727150527756410530743116666855213356732692193210673743296393773295986582929871242230689609642079721920981026026656866758841871104551669426774878175709769205422644300552) = (0, 7178502963762810568145099737579539522634591030067475538147460678270844638021495026509863863585255782933082031305798131338013555541418710740843372533381293866051157256502133552187713424273940184150134350644690843877178605000728024514764041841454018228564205006291622219923303270794042823744518880325249194026624454415999730824584197539410540037043136359471431062100503273464112338359589651432322354250757148384477994254742933688978351578719649300637187063175019050545930526282227947392156883150160108053937650952078443612354254050051547280718727412646984964666012973533639136301336728877125529081143393990419139355458, 1) := by
    rw [show (1024 : Nat) = 128 + 896 by norm_num, pmSteps_add, c8, h9]
  have h7 : pmSteps P 1152 (30586163746423534735660370005368802598107204070858311604126554211828702755807646039675549111493678749138427674175608173610898784543902878207577568202763009333184604782513630970161528800351564776136643885381435329449949450749173830409049074359733824045922077241049777736679623995874780058038549448866785792399257037510101330346687066588901618640815, 14811154943736632420054700994481435863934105899392317703923101865355999446953332468887553586154680012835639432389005925585776718884473669182963136732028045271838038109094945972568970937317379834957847231208244962375965904508319421532671914496822222898584604136610060636158214337460376992486242272784605688901387563216768979108816649526878986196080881232412809409071963183690955355145356847401122317184407750299519746021087282978241367950049311610649364240173233432613856846878414343776483653377383391641209285509729112456877725684878846679382620485068796846291654093480526504185592529673647357069802388693131235966481, 4277449970656805664753989163881442712122377540630138175779836660911974185056462661497978776309742901662828737772547697319630956245994223494567330907625545129335457359279462930987817805934570125687007028924895528287191342126900737345027545962091148220089920522541015299431593733122450196543767680351636356388089225230666695786149582013011835010196608866156401574426789651468658255537862843748350577522078851693850305452943249819159380708346283293520629848393917687203532614380214757836964742631429660747675174041566519360702754278610775079403187135846522245372595627372859827706079933214943987174884080818363971949120) = (0, 7178502963762810568145099737579539522634591030067475538147460678270844638021495026509863863585255782933082031305798131338013555541418710740843372533381293866051157256502133552187713424273940184150134350644690843877178605000728024514764041841454018228564205006291622219923303270794042823744518880325249194026624454415999730824584197539410540037043136359471431062100503273464112338359589651432322354250757148384477994254742933688978351578719649300637187063175019050545930526282227947392156883150160108053937650952078443612354254050051547280718727412646984964666012973533639136301336728877125529081143393990419139355458, 1) := by
    rw [show (1152 : Nat) = 128 + 1024 by norm_num, pmSteps_add, c7, h8]
  have h6 : pmSteps P 1280 (10407932194664399081804158723191287573207624081921677643896817455755553218653625098764656103344791715370238396303475233067790903570962493228868662300166421073876740320153710090642582201343455507513802887506388707686534264809887826890839162183471554469058142201694310980072044299346261970941428984010193223824162550283890721000620285860130629007219047536077452841646159788726701309208925, 7956427420773773936522363622554848401115960070469033535244646806866318112679262863264440238201503882730711787166238307145346350007124790861392480099562735740589060734093849155679012233506974716922988729728622958802894143056680848340368202991270075470763172887299158341918971085612732194465050231471341308460824186286033480621656811972430010336381565989144459252408338103951953821474152143234657930137863686332718676160592199744576270044094999926403527765096054194224421649018832093633079215569318522134845294768866849123803502536459132752064324251187893716772553396969863368801398657281362774206073265697061774520613, 29405502298127955387360137221779778917371467806020099499748497300876753876710381925502778198558248555122149186166442689177281259554396698490077753298355547882940687456331689692419425874244755181368070479868896503740478394170132920592194345678108872938378255734577870567757820567440769648310673581826463222911484929775004128519766629845094566506870961883800767949760276249670906845407243691850450306362355117540894909406162777272567097842381195664023176255584630606048039079800067492778387142425215946459830646333120455808081196405745885722236001253872174633375419526300195041774080886416013959952828759186291587290201) = (0, 7178502963762810568145099737579539522634591030067475538147460678270844638021495026509863863585255782933082031305798131338013555541418710740843372533381293866051157256502133552187713424273940184150134350644690843877178605000728024514764041841454018228564205006291622219923303270794042823744518880325249194026624454415999730824584197539410540037043136359471431062100503273464112338359589651432322354250757148384477994254742933688978351578719649300637187063175019050545930526282227947392156883150160108053937650952078443612354254050051547280718727412646984964666012973533639136301336728877125529081143393990419139355458, 1) := by
    rw [show (1280 : Nat) = 128 + 1152 by norm_num, pmSteps_add, c6, h7]
  have h5 : pmSteps P 1408 (3541635801953039378709766665061481297609046681527690507875359761876204062993351084877971591700356054844613441528304198380651784382110241714512055334840313391840163182338820822588681176955236358644495216269158298716068810030657840944913770572154713961734771354531735740600423935487464218861966130026248512736418801177578353590648202163799617861994296405032238231710859636578027933682111866269281414761834424343650527885544450, 9414760741930084225388308814881305483856124839956573371341603267126782224126364095215020660128549536090142409546149642473942353849366825934986490236470915039289949525371066035457869415794916528182362049262812473381314476574280395900242290643224992687929723338928681587673506606799728685559172803780855599038901865402782195215622697579408368668317895355560410006726652021467483643528853260670768555846060276099648734888485094019343489865798350525444156562238097477527411069347671913631253436806716564431189455561906924869460543672902068685656694450741108345562058001154426139011933846940341755715319285065337121251520, 26766672635430892905007085842651369470277882348086024946708453163880458767650093630305974880891110789557843056923529985542753285542905041965255974649542006501982270923399662280267510553672049011625959487678588284781216539638177583777099068374761883463079011771633863445597408726144960538253110397558234647059564290669779117205696243784768874141003078673084796846941198407587251909015798577784921946343667296568963998738973575029770671274560892612600013874472351649019271238955909070593408786204982994497860360955372907456472033636314216708372633669730241626605766647485084331553267263001396691812591859728139827708382) = (0, 7178502963762810568145099737579539522634591030067475538147460678270844638021495026509863863585255782933082031305798131338013555541418710740843372533381293866051157256502133552187713424273940184150134350644690843877178605000728024514764041841454018228564205006291622219923303270794042823744518880325249194026624454415999730824584197539410540037043136359471431062100503273464112338359589651432322354250757148384477994254742933688978351578719649300637187063175019050545930526282227947392156883150160108053937650952078443612354254050051547280718727412646984964666012973533639136301336728877125529081143393990419139355458, 1) := by
    rw [show (1408 : Nat) = 128 + 1280 by norm_num, pmSteps_add, c5, h6]
  have h4 : pmSteps P 1536 (1205156213460516294276038011098783037428475274251229971327058470979054415841306114445046929130670807336613570738952006098251824478525291315971365353402504611531367372670536703348123007294680829887020513584624726600189364717085162921889329599071881596888429934762044470097788673059921772650773521873603874984881875042154463169647779984441228936206496905064565147296499973963182632029642323604865192473605840717232357219244260470063729922137587735814779017375737629, 3786304826951498599583692333402791999336833367463613722020351282264052300808474034544742689992278057787724727176292369687097570069589535414969938141819775493139375865420737156955880512432770438471584890876859878303034479044811468868570179673915192729882698363381302618361330674081466468186223844747503254970927361922758311186264961107512519707213807971816408130870433974835527974170732481857524519215382708608578730011951090162200080576909098801308086045007083745050019646763967044571256782697392487870150471840987592104642926966576730058485039536848515044847735053450674539521968565157470164607741587244359689726331, 25007455474474266701675645550561282445035622186199063949788592261352506432468531830071680728286952984915051531199660711843952827577334725997404301883355026778098152627031906469972186883684051575608090949684432897339831402613071968487862606243781856936178352895524086329286581293554726936611251312939770487511236806089860232241912222955831786784207820696810879960273160977126603915213947130550543360705738369967683249022480628719547110335650673844328369178312728792265038911520535031137461808004263367612280037315222193786309789144664847857568571642456009605517010336595339331652999550414820104451624097232709708169952) = (0, 7178502963762810568145099737579539522634591030067475538147460678270844638021495026509863863585255782933082031305798131338013555541418710740843372533381293866051157256502133552187713424273940184150134350644690843877178605000728024514764041841454018228564205006291622219923303270794042823744518880325249194026624454415999730824584197539410540037043136359471431062100503273464112338359589651432322354250757148384477994254742933688978351578719649300637187063175019050545930526282227947392156883150160108053937650952078443612354254050051547280718727412646984964666012973533639136301336728877125529081143393990419139355458, 1) := by
    rw [show (1536 : Nat) = 128 + 1408 by norm_num, pmSteps_add, c4, h5]
  have h3 : pmSteps P 1664 (410093408825820243655469046065881286055906249518429035112393872202635053558677645855849094979382803877673182189725178041542743473529754341450934581499179046592208145926270185513651500223299657414743534049880759153350857166842550544115976553991112680200890081464393958955895804602854163399397949714791710162530935006166571581792206468133538351507710668127751163722507556737259349159687013500977520819172214785413171592981481285601449435307680226061535790526147568488201729537875619704723088262761271623, 15748814151839426608069596400434503835628718464550473034858632235764800223277591056435918578877794760191436566354023485027250793861615160310068644329252282468281650243334609977233519205742326477026122587463585907092035610672825100827650774198311432208959290912814631583328151432825829303944750412619342943607888003834305621830619915578120496973846179603090807316509901055762411684994188760029320136563606414381119111527088691295485856445216425794054306505339560950629656691740753532396642410393058874276933432101496013099009822796189179326692823999021592466911361626356507378429595872795708656878863609040309958636650, 18407824363552041610485203505326916985780623956704586924934893886420088161659085523189443914729041564853422365940341081732445698340377269755846764271801858914599755502899273385376743332778617694832890211084189115870540280194925775703082196315158778274571326714590600882637022830647295059192130227207771135782969597902357031593567846407123789914811711843663208492744602147912571247185126975801192607932148724642974600463170075515475526650551715052044596783532674054632808348774220311338116134755930348410155526190531003430924416808676678773774216822599190634069342475645377872399924927736630544556447566432223903849373) = (0, 7178502963762810568145099737579539522634591030067475538147460678270844638021495026509863863585255782933082031305798131338013555541418710740843372533381293866051157256502133552187713424273940184150134350644690843877178605000728024514764041841454018228564205006291622219923303270794042823744518880325249194026624454415999730824584197539410540037043136359471431062100503273464112338359589651432322354250757148384477994254742933688978351578719649300637187063175019050545930526282227947392156883150160108053937650952078443612354254050051547280718727412646984964666012973533639136301336728877125529081143393990419139355458, 1) := by
    rw [show (1664 : Nat) = 128 + 1536 by norm_num, pmSteps_add, c3, h4]
  have h2 : pmSteps P 1792 (139547555813926188202287898066434325237331319437829664702185162952221079558776377099832064912209264686922689239009238880731160193912162599982041254203901393749152544682910747738122776725314115025833003832833970450560436969677319218794142783799204424597476292907735904997759938825523020631092441754845295050162040543771905561462272630128676001478595712103070910540228284137172316949534828858636545909649328655311367915493440676110218801370406024499574187808262790573906203665607156965624132754326963442506673150666589500059583039965359770508, 30187163837397084835484457130183408513889458158444410512624589115729539703887549383480115893232968190265951838319638231259378522559408776478030838353347506881128220629971198208386693750319210258658284692237773224588199554462345323703135076584369806056856672413427420494567441935976642255707707689714453720641162751348612924720093000308355834651992838938472241877830502852547615290322077870479916436407958416126432244363688166205287608288093877379943897690928230928509973204901507098183730085170917355256871391709446863370682645607342881270396610870192257680388199782627908723104214217160226529261780676350093235339400, 947636346052398565596524285613906274060645138314538684813078057369322355756955868075778655541752263533181962737509618215229044976410596357872527446531696619561149880854300127354011074401233454973028235339466937268865365257691451746503946848738447406943309126488406480422309122446839169485062574037653169054975471554960171920292779811368309470423132816425845751563297374748173695774788005867129696710832048167316638931033918380903887221788459117126253237856009974970238526523803411875715359233644489349455760994321799333926578313447895977625607819952487428209317645558366939371490984137724430098665579090972984198314) = (0, 7178502963762810568145099737579539522634591030067475538147460678270844638021495026509863863585255782933082031305798131338013555541418710740843372533381293866051157256502133552187713424273940184150134350644690843877178605000728024514764041841454018228564205006291622219923303270794042823744518880325249194026624454415999730824584197539410540037043136359471431062100503273464112338359589651432322354250757148384477994254742933688978351578719649300637187063175019050545930526282227947392156883150160108053937650952078443612354254050051547280718727412646984964666012973533639136301336728877125529081143393990419139355458, 1) := by
    rw [show (1792 : Nat) = 128 + 1664 by norm_num, pmSteps_add, c2, h3]
  have h1 : pmSteps P 1920 (47485572590394570702182504219017658476253748163408042778179699234417618948438828748558373358504035736465372921418905480959866135304388931887487541824896388724845635146344577302867576142658055539569836731029707569847480242126520806988322180539791372287958004883517092295365179304228255111026801897068624011790876706363569007665211369744893228459674685904808002954191003942614108969668427122517678667864688260561515225978674464905134849475732649952905846701273725426313065806341169747229738981005761627824974310809454099611045234123881643224809063134811728695436910723881441755784, 30667766547869851859787277321953271073665282315935763572268886474592895424971769856355856850098513019972993082209465183246202750703643070341597748435097869241167811524085490516787582517479183255769187664446625060021467759379893392315683298474499649018838543314780022529204083434099643074471962736682606877210745775147329148045628048810230132756427354568157629837543186191867261373475899693242769676941193619316270164043707590675614896586355805273223321551175777248699691445140098702055812917877095813989931977218708914292820159172421812733703295143654957276100633070818702426575549595190301365762438076189715490527416, 9719435536008210098950311624559699812102688222982679356690564430419584793754202987554679392081755647146420289568044642361598726562481765067239708502865908338966774628359036619857788297187186038829498687575546760203412363874239702876763161797648185524612565511765819495331667167136504605231970698103723703534309041373262359756857247572524729719998085524484518656411851564926197286510829959353232297854440815925521690913400855668489432959183394689724692627485043756697807379837857841451234726762582227500419423687756683326784412418526396398718251745739650465112881919995810986288098284711004400649406080698892525484358) = (0, 7178502963762810568145099737579539522634591030067475538147460678270844638021495026509863863585255782933082031305798131338013555541418710740843372533381293866051157256502133552187713424273940184150134350644690843877178605000728024514764041841454018228564205006291622219923303270794042823744518880325249194026624454415999730824584197539410540037043136359471431062100503273464112338359589651432322354250757148384477994254742933688978351578719649300637187063175019050545930526282227947392156883150160108053937650952078443612354254050051547280718727412646984964666012973533639136301336728877125529081143393990419139355458, 1) := by
    rw [show (1920 : Nat) = 128 + 1792 by norm_num, pmSteps_add, c1, h2]
  have h0 : pmSteps P 2048 (Q, 2, 1) = (0, 7178502963762810568145099737579539522634591030067475538147460678270844638021495026509863863585255782933082031305798131338013555541418710740843372533381293866051157256502133552187713424273940184150134350644690843877178605000728024514764041841454018228564205006291622219923303270794042823744518880325249194026624454415999730824584197539410540037043136359471431062100503273464112338359589651432322354250757148384477994254742933688978351578719649300637187063175019050545930526282227947392156883150160108053937650952078443612354254050051547280718727412646984964666012973533639136301336728877125529081143393990419139355458, 1) := by
    rw [show (2048 : Nat) = 128 + 1920 by norm_num, pmSteps_add, c0, h1]
  exact pmSteps_run_final P 2048 Q 2
    7178502963762810568145099737579539522634591030067475538147460678270844638021495026509863863585255782933082031305798131338013555541418710740843372533381293866051157256502133552187713424273940184150134350644690843877178605000728024514764041841454018228564205006291622219923303270794042823744518880325249194026624454415999730824584197539410540037043136359471431062100503273464112338359589651432322354250757148384477994254742933688978351578719649300637187063175019050545930526282227947392156883150160108053937650952078443612354254050051547280718727412646984964666012973533639136301336728877125529081143393990419139355458
    (by decide) h0


/-! ## Schnorr completeness -/

lemma one_lt_P : (1 : Nat) < P := by decide

lemma pow_cycle (n : Nat) : (2 : Nat) ^ (n % Q) % P = 2 ^ n % P := by
  have hQ : (2 : Nat) ^ Q % P = 1 % P := by
    rw [two_pow_Q_mod_P, Nat.mod_eq_of_lt one_lt_P]
  have h2 : ((2 : Nat) ^ Q) ^ (n / Q) * 2 ^ (n % Q) % P
      = 1 ^ (n / Q) * 2 ^ (n % Q) % P :=
    Nat.ModEq.mul (Nat.ModEq.pow (n / Q) hQ) (Nat.ModEq.refl _)
  calc (2 : Nat) ^ (n % Q) % P
      = 1 ^ (n / Q) * 2 ^ (n % Q) % P := by rw [one_pow, one_mul]
    _ = ((2 : Nat) ^ Q) ^ (n / Q) * 2 ^ (n % Q) % P := h2.symm
    _ = 2 ^ (Q * (n / Q) + n % Q) % P := by rw [pow_add, pow_mul]
    _ = 2 ^ n % P := by rw [Nat.div_add_mod n Q]

lemma schnorr_equation (x r c : Nat) :
    (2 : Nat) ^ ((r + c * x) % Q) % P
      = (2 ^ r % P) * ((2 ^ x % P) ^ c % P) % P := by
  have hx : ((2 : Nat) ^ x) ^ c % P = ((2 : Nat) ^ x % P) ^ c % P :=
    Nat.pow_mod _ _ _
  calc (2 : Nat) ^ ((r + c * x) % Q) % P
      = 2 ^ (r + c * x) % P := pow_cycle _
    _ = (2 ^ r * ((2 : Nat) ^ x) ^ c) % P := by
        rw [Nat.mul_comm c x, pow_add, pow_mul]
    _ = (2 ^ r % P) * (((2 : Nat) ^ x) ^ c % P) % P := Nat.mul_mod _ _ _
    _ = (2 ^ r % P) * ((2 ^ x % P) ^ c % P) % P := by rw [hx]

lemma powerMod_natCast (b e m : Nat) (hm : 1 < m) :
    powerMod (b : Int) e (m : Int) = ((b ^ e % m : Nat) : Int) := by
  rw [powerMod_spec _ _ _ (by exact_mod_cast hm) (Int.natCast_nonneg b)]
  push_cast
  rfl

/-- C2: Schnorr completeness. For every private key `x`, every 32-byte random
value, every challenge-hash function `H` (subsuming every geohash context) the
proof `{R, s, y}` emitted by `SchnorrProverJS.generateProof` satisfies the
verification equation `powerMod(G, s, P) == (R * powerMod(y, c, P)) mod P`,
where `c` is recomputed from the proof exactly as the verifier does. -/
theorem C2_schnorr_completeness (x rand32 : Nat) (H : Int → Int → List Char → Nat)
    (geohash : List Char) : schnorrVerify H (generateProof x rand32 H geohash) := by
  simp only [schnorrVerify, generateProof]
  generalize sampleNonce rand32 = r
  generalize H _ _ _ % Q = c
  rw [powerMod_natCast G x P one_lt_P, powerMod_natCast G r P one_lt_P,
    powerMod_natCast G ((r + c * x) % Q) P one_lt_P,
    powerMod_natCast (G ^ x % P) c P one_lt_P]
  have hnat := schnorr_equation x r c
  simp only [G]
  exact_mod_cast hnat

/-! ## Nonce sampling -/

lemma pow256_lt_Qsub1 : 2 ^ 256 < Q - 1 := by norm_num [Q, P]

/-- C8 (counterexample): the sampling `r = v % (Q-1) + 1` is not uniform over
`[1, Q-1]`: the value `Q-1` lies in that range but is never produced from any
32-byte random value, because every sampled nonce is at most `2^256 < Q-1`. -/
theorem C8_counterexample :
    1 ≤ Q - 1 ∧ ¬ ∃ v : Nat, v < 2 ^ 256 ∧ sampleNonce v = Q - 1 := by
  have hQ := pow256_lt_Qsub1
  refine ⟨by omega, ?_⟩
  rintro ⟨v, hv, he⟩
  unfold sampleNonce at he
  have h1 : v % (Q - 1) ≤ v := Nat.mod_le v (Q - 1)
  omega

/-- C8 (amended): for every 32-byte output `v` of the random source, the nonce
`r = v % (Q-1) + 1` computed in `SchnorrProverJS.generateProof` lies in the
range `[1, Q-1]`; the sampling however is not uniform over that range — every
such nonce also satisfies `r ≤ 2^256`, so only an initial sub-interval of
`[1, Q-1]` is reachable. -/
theorem C8_nonce_range (v : Nat) (hv : v < 2 ^ 256) :
    1 ≤ sampleNonce v ∧ sampleNonce v ≤ Q - 1 ∧ sampleNonce v ≤ 2 ^ 256 := by
  have hQ := pow256_lt_Qsub1
  unfold sampleNonce
  have h1 : v % (Q - 1) ≤ v := Nat.mod_le v (Q - 1)
  have h2 : v % (Q - 1) < Q - 1 := Nat.mod_lt v (by omega)
  omega

/-- C8 (witness): the amended claim at the concrete random value 5. -/
theorem C8_nonce_range_witness :
    (5 : Nat) < 2 ^ 256 ∧
    (1 ≤ sampleNonce 5 ∧ sampleNonce 5 ≤ Q - 1 ∧ sampleNonce 5 ≤ 2 ^ 256) :=
  ⟨by norm_num, C8_nonce_range 5 (by norm_num)⟩

/-- C9: for every 32-byte random value the nonce satisfies `r ≤ 2^256`, and
`Q` is approximately `2^2047` (strictly between `2^2046` and `2^2047`), so
every nonce falls in a `2^256`-sized initial sub-range of `[1, Q-1]` instead
of ranging over the whole interval. -/
theorem C9_nonce_subrange (v : Nat) (hv : v < 2 ^ 256) :
    1 ≤ sampleNonce v ∧ sampleNonce v ≤ 2 ^ 256 ∧ 2 ^ 256 < Q - 1 ∧
    2 ^ 2046 < Q ∧ Q < 2 ^ 2047 := by
  have hQ := pow256_lt_Qsub1
  have hlo : 2 ^ 2046 < Q := by norm_num [Q, P]
  have hhi : Q < 2 ^ 2047 := by norm_num [Q, P]
  unfold sampleNonce
  have h1 : v % (Q - 1) ≤ v := Nat.mod_le v (Q - 1)
  exact ⟨by omega, by omega, hQ, hlo, hhi⟩

/-- C9 (witness): the claim at the concrete random value 0. -/
theorem C9_nonce_subrange_witness :
    (0 : Nat) < 2 ^ 256 ∧
    (1 ≤ sampleNonce 0 ∧ sampleNonce 0 ≤ 2 ^ 256 ∧ 2 ^ 256 < Q - 1 ∧
      2 ^ 2046 < Q ∧ Q < 2 ^ 2047) :=
  ⟨by norm_num, C9_nonce_subrange 0 (by norm_num)⟩

/-! ## Geohash encoder lemmas -/

lemma B32_length : B32.length = 32 := by decide

lemma getD_B32_mem {n : Nat} (h : n < 32) : B32.getD n ' ' ∈ B32 := by
  have hlen : n < B32.length := by rw [B32_length]; exact h
  simp only [List.getD_eq_getElem?_getD, List.getElem?_eq_getElem hlen,
    Option.getD_some]
  exact List.getElem_mem hlen

lemma ch_update_lt {ch bit : Nat} (hch : ch < 32) : ch ||| 1 <<< (4 - bit) < 32 := by
  have h1 : (1 : Nat) <<< (4 - bit) < 32 := by
    rw [Nat.shiftLeft_eq, one_mul]
    calc (2 : Nat) ^ (4 - bit) ≤ 2 ^ 4 := Nat.pow_le_pow_right (by omega) (by omega)
      _ < 32 := by norm_num
  have hch5 : ch < 2 ^ 5 := by omega
  have h15 : (1 : Nat) <<< (4 - bit) < 2 ^ 5 := by omega
  have : ch ||| 1 <<< (4 - bit) < 2 ^ 5 := Nat.bitwise_lt hch5 h15
  omega

lemma geoRefine_bit (lat lon : ℚ) (s : GeoState) :
    (geoRefine lat lon s).bit = s.bit := by
  obtain ⟨h, a, b, c, d, bit, ch, ev⟩ := s
  simp only [geoRefine]
  split_ifs <;> rfl

lemma geoRefine_hash (lat lon : ℚ) (s : GeoState) :
    (geoRefine lat lon s).hash = s.hash := by
  obtain ⟨h, a, b, c, d, bit, ch, ev⟩ := s
  simp only [geoRefine]
  split_ifs <;> rfl

lemma geoRefine_ch (lat lon : ℚ) (s : GeoState) (hch : s.ch < 32) :
    (geoRefine lat lon s).ch < 32 := by
  obtain ⟨h, a, b, c, d, bit, ch, ev⟩ := s
  simp only [geoRefine] at hch ⊢
  split_ifs <;> first
    | exact hch
    | exact ch_update_lt hch

lemma geoStep_bit (lat lon : ℚ) (s : GeoState) :
    (geoStep lat lon s).bit = if s.bit < 4 then s.bit + 1 else 0 := by
  simp only [geoStep, geoEmit, geoRefine_bit]
  split_ifs with h <;> rfl

lemma geoStep_hash (lat lon : ℚ) (s : GeoState) :
    (geoStep lat lon s).hash =
      if s.bit < 4 then s.hash
      else s.hash ++ [B32.getD (geoRefine lat lon s).ch ' '] := by
  simp only [geoStep, geoEmit, geoRefine_bit, geoRefine_hash]
  split_ifs with h <;> rfl

lemma geoStep_ch (lat lon : ℚ) (s : GeoState) :
    (geoStep lat lon s).ch =
      if s.bit < 4 then (geoRefine lat lon s).ch else 0 := by
  simp only [geoStep, geoEmit, geoRefine_bit]
  split_ifs with h <;> rfl

lemma geoIter_inv (lat lon : ℚ) : ∀ m : Nat,
    ((geoStep lat lon)^[m] geoInit).bit = m % 5 ∧
    ((geoStep lat lon)^[m] geoInit).ch < 32 ∧
    ((geoStep lat lon)^[m] geoInit).hash.length = m / 5 ∧
    ∀ c ∈ ((geoStep lat lon)^[m] geoInit).hash, c ∈ B32 := by
  intro m
  induction m with
  | zero =>
    refine ⟨rfl, by norm_num [geoInit], rfl, ?_⟩
    intro c hc
    simp [geoInit] at hc
  | succ m ih =>
    obtain ⟨hbit, hch, hlen, hmem⟩ := ih
    rw [Function.iterate_succ_apply']
    constructor
    · rw [geoStep_bit, hbit]
      split_ifs with h <;> omega
    constructor
    · rw [geoStep_ch]
      split_ifs with h
      · exact geoRefine_ch lat lon _ hch
      · omega
    constructor
    · rw [geoStep_hash]
      split_ifs with h
      · rw [hbit] at h
        rw [hlen]
        omega
      · rw [hbit] at h
        rw [List.length_append, hlen, List.length_singleton]
        omega
    · rw [geoStep_hash]
      split_ifs with h
      · exact hmem
      · intro c hc
        rcases List.mem_append.mp hc with hc | hc
        · exact hmem c hc
        · rw [List.mem_singleton] at hc
          subst hc
          exact getD_B32_mem (geoRefine_ch lat lon _ hch)

lemma geoIter_hash_mono (lat lon : ℚ) (m k : Nat) :
    ((geoStep lat lon)^[m] geoInit).hash <+:
      ((geoStep lat lon)^[m + k] geoInit).hash := by
  induction k with
  | zero => exact ⟨[], List.append_nil _⟩
  | succ k ih =>
    rw [Nat.add_succ, Function.iterate_succ_apply']
    refine ih.trans ?_
    rw [geoStep_hash]
    split_ifs with h
    · exact ⟨[], List.append_nil _⟩
    · exact ⟨[B32.getD (geoRefine lat lon _).ch ' '], rfl⟩

lemma geoLoop_eq_iter (lat lon : ℚ) (prec : Int) :
    ∀ (fuel : Nat) (s : GeoState),
      (∀ j : Nat, j < fuel → (((geoStep lat lon)^[j] s).hash.length : Int) < prec) →
      geoLoop lat lon prec fuel s = (geoStep lat lon)^[fuel] s := by
  intro fuel
  induction fuel with
  | zero => intro s _; rfl
  | succ fuel ih =>
    intro s h
    rw [geoLoop, if_pos]
    · rw [ih (geoStep lat lon s) ?_, ← Function.iterate_succ_apply]
      intro j hj
      have hj1 := h (j + 1) (by omega)
      rw [Function.iterate_succ_apply] at hj1
      exact hj1
    · have h0 := h 0 (by omega)
      simpa using h0

lemma computeGeohash_length (lat lon : ℚ) (prec : Int) :
    (computeGeohash lat lon prec).length = prec.toNat := by
  unfold computeGeohash
  rw [geoLoop_eq_iter]
  · rw [(geoIter_inv lat lon (5 * prec.toNat)).2.2.1]
    omega
  · intro j hj
    rw [(geoIter_inv lat lon j).2.2.1]
    omega

lemma computeGeohash_alphabet (lat lon : ℚ) (prec : Int) :
    ∀ c ∈ computeGeohash lat lon prec, c ∈ B32 := by
  unfold computeGeohash
  rw [geoLoop_eq_iter]
  · exact (geoIter_inv lat lon (5 * prec.toNat)).2.2.2
  · intro j hj
    rw [(geoIter_inv lat lon j).2.2.1]
    omega

lemma computeGeohash_take (lat lon : ℚ) (k n : Int) (hkn : k ≤ n) :
    (computeGeohash lat lon n).take k.toNat = computeGeohash lat lon k := by
  unfold computeGeohash
  rw [geoLoop_eq_iter lat lon n, geoLoop_eq_iter lat lon k]
  · have hmono := geoIter_hash_mono lat lon (5 * k.toNat)
      (5 * n.toNat - 5 * k.toNat)
    rw [show 5 * k.toNat + (5 * n.toNat - 5 * k.toNat) = 5 * n.toNat
      by omega] at hmono
    obtain ⟨t, ht⟩ := hmono
    rw [← ht]
    have hlen : ((geoStep lat lon)^[5 * k.toNat] geoInit).hash.length = k.toNat := by
      rw [(geoIter_inv lat lon _).2.2.1]
      omega
    exact List.take_left' hlen
  · intro j hj
    rw [(geoIter_inv lat lon j).2.2.1]
    omega
  · intro j hj
    rw [(geoIter_inv lat lon j).2.2.1]
    omega

/-- C3: geohash prefix-stability. For every latitude, longitude (as exact
rationals) and positive integers `k ≤ n`, the first `k` characters of
`computeGeohash(lat, lon, n)` equal `computeGeohash(lat, lon, k)`. -/
theorem C3_geohash_stability (lat lon : ℚ) (k n : Int) (_hk : 0 < k)
    (hkn : k ≤ n) :
    (computeGeohash lat lon n).take k.toNat = computeGeohash lat lon k :=
  computeGeohash_take lat lon k n hkn

/-- C3 (witness): the first 6 characters of the precision-7 geohash of
(37.7749, -122.4194) equal its precision-6 geohash. -/
theorem C3_geohash_stability_witness :
    (0 : Int) < 6 ∧ (6 : Int) ≤ 7 ∧
    (computeGeohash (37.7749 : ℚ) (-122.4194 : ℚ) 7).take ((6 : Int)).toNat
      = computeGeohash (37.7749 : ℚ) (-122.4194 : ℚ) 6 :=
  ⟨by norm_num, by norm_num,
   C3_geohash_stability (37.7749 : ℚ) (-122.4194 : ℚ) 6 7 (by norm_num) (by norm_num)⟩

/-- C7: for every latitude in [-90, 90], longitude in [-180, 180] and positive
integer precision, `computeGeohash(lat, lon, precision)` returns a string
whose length equals `precision` and whose every character belongs to the
32-symbol alphabet "0123456789bcdefghjkmnpqrstuvwxyz". -/
theorem C7_geohash_contract (lat lon : ℚ) (prec : Int)
    (_hlat1 : -90 ≤ lat) (_hlat2 : lat ≤ 90) (_hlon1 : -180 ≤ lon)
    (_hlon2 : lon ≤ 180) (hp : 0 < prec) :
    ((computeGeohash lat lon prec).length : Int) = prec ∧
    ∀ c ∈ computeGeohash lat lon prec, c ∈ B32 := by
  refine ⟨?_, computeGeohash_alphabet lat lon prec⟩
  rw [computeGeohash_length]
  omega

/-- C7 (witness): the contract at (37.7749, -122.4194) with precision 6. -/
theorem C7_geohash_contract_witness :
    ((-90 : ℚ) ≤ 37.7749 ∧ (37.7749 : ℚ) ≤ 90 ∧ (-180 : ℚ) ≤ -122.4194 ∧
      (-122.4194 : ℚ) ≤ 180 ∧ (0 : Int) < 6) ∧
    ((computeGeohash (37.7749 : ℚ) (-122.4194 : ℚ) 6).length : Int) = 6 :=
  ⟨⟨by norm_num, by norm_num, by norm_num, by norm_num, by norm_num⟩,
   (C7_geohash_contract (37.7749 : ℚ) (-122.4194 : ℚ) 6 (by norm_num)
     (by norm_num) (by norm_num) (by norm_num) (by norm_num)).1⟩

/-- C10: `computeGeohash` terminates and returns a string for every rational
latitude and longitude — it performs no range check, accepting coordinates
outside [-90, 90] and [-180, 180] — and for every integer precision; its
length is always `precision.toNat`, and in particular for `precision ≤ 0`
it returns the empty string instead of failing. -/
theorem C10_geohash_total (lat lon : ℚ) (prec : Int) :
    (computeGeohash lat lon prec).length = prec.toNat ∧
    (prec ≤ 0 → computeGeohash lat lon prec = []) := by
  refine ⟨computeGeohash_length lat lon prec, fun hp => ?_⟩
  rw [← List.length_eq_zero, computeGeohash_length]
  omega

/-- C10 (witness): at the out-of-range coordinates (200, 300), precision -2
yields the empty string and precision 7 yields a 7-character string. -/
theorem C10_geohash_total_witness :
    computeGeohash 200 300 (-2) = [] ∧
    (computeGeohash 200 300 7).length = ((7 : Int)).toNat :=
  ⟨(C10_geohash_total 200 300 (-2)).2 (by norm_num),
   (C10_geohash_total 200 300 7).1⟩

/-- C5 (code_bug): when the external proving engine fails (the
`snarkjs.groth16.fullProve` call throws, modelled as `proveResult = none`),
the demo payload that `runGeohashZKP` subsequently submits to the `/verify`
endpoint carries the raw geohash fingerprint `userHashStr = computeGeohash
(lat, lon, 7)` verbatim, contradicting the claim that no error path leaks
the raw fingerprint. -/
theorem C5_demo_payload_leaks (lat lon : ℚ) (allowedPrefix : List Char) :
    payloadRawGeohash
        (@buildVerifyPayload Unit none (computeGeohash lat lon 7) allowedPrefix)
      = some (computeGeohash lat lon 7) := by
  rfl

end PrivAccess
